import Mathlib

/-!
Verification development for the trading-cockpit position risk and decision
engine.  The Python sources (pro_manager.py, options_analytics.py,
portfolio_risk.py) are shallowly embedded: floats become exact rationals,
ints become integers, Python dataclasses become structures, and the
transcendental primitives (sqrt, exp, log, erf) that only feed fields no
claim depends on are passed in as explicit function parameters.  Stateful
methods become pure state-transformers on the Position structure; the
market-data fetch is parameterised by the snapshot it would have returned.
-/

namespace Cockpit

/-- Python truthiness fallback on floats: a or b keeps a unless a is zero. -/
def pyOr (a b : ℚ) : ℚ := if a = 0 then b else a

/-- Whether the first character list is an initial segment of the second. -/
def startsWithChars : List Char → List Char → Bool
  | [], _ => true
  | _ :: _, [] => false
  | a :: as, b :: bs => a == b && startsWithChars as bs

/-- Whether the first character list occurs inside the second (Python in). -/
def hasSubChars (needle : List Char) : List Char → Bool
  | [] => startsWithChars needle []
  | b :: bs => startsWithChars needle (b :: bs) || hasSubChars needle bs

/-- Python substring test: needle in hay. -/
def strHas (hay needle : String) : Bool := hasSubChars needle.data hay.data

/-- Python negative-slice l[-n:]: the last n elements of a list. -/
def takeLast {α : Type} (n : Nat) (l : List α) : List α := l.drop (l.length - n)

/-- Option type of the position, mirroring the PositionType enum. -/
inductive PositionType where
  | LONG_CALL
  | LONG_PUT
deriving DecidableEq

/-- String value of a PositionType, as stored by the Python Enum. -/
def PositionType.value : PositionType → String
  | .LONG_CALL => "LONG_CALL"
  | .LONG_PUT => "LONG_PUT"

/-- Reconstruction of a PositionType from its stored string value. -/
def PositionType.ofValue : String → Option PositionType
  | "LONG_CALL" => some .LONG_CALL
  | "LONG_PUT" => some .LONG_PUT
  | _ => none

/-- Trade status classification, mirroring the TradeStatus enum. -/
inductive TradeStatus where
  | BUILDING
  | HOLDING_STRONG
  | HOLDING_GOOD
  | HOLDING_NEUTRAL
  | HOLDING_WEAK
  | TAKE_PARTIAL
  | TAKE_FULL
  | RUNNER_ACTIVE
  | CONSIDER_ROLL
  | WARNING_THETA
  | WARNING_GAMMA
  | WARNING_IV_CRUSH
  | WARNING_LIQUIDITY
  | EXIT_STOP
  | EXIT_TARGET
  | EXIT_TIME
deriving DecidableEq

/-- String value of a TradeStatus, as stored by the Python Enum. -/
def TradeStatus.value : TradeStatus → String
  | .BUILDING => "BUILDING"
  | .HOLDING_STRONG => "HOLDING_STRONG"
  | .HOLDING_GOOD => "HOLDING_GOOD"
  | .HOLDING_NEUTRAL => "HOLDING_NEUTRAL"
  | .HOLDING_WEAK => "HOLDING_WEAK"
  | .TAKE_PARTIAL => "TAKE_PARTIAL"
  | .TAKE_FULL => "TAKE_FULL"
  | .RUNNER_ACTIVE => "RUNNER_ACTIVE"
  | .CONSIDER_ROLL => "CONSIDER_ROLL"
  | .WARNING_THETA => "WARNING_THETA"
  | .WARNING_GAMMA => "WARNING_GAMMA"
  | .WARNING_IV_CRUSH => "WARNING_IV_CRUSH"
  | .WARNING_LIQUIDITY => "WARNING_LIQUIDITY"
  | .EXIT_STOP => "EXIT_STOP"
  | .EXIT_TARGET => "EXIT_TARGET"
  | .EXIT_TIME => "EXIT_TIME"

/-- Reconstruction of a TradeStatus from its stored string value. -/
def TradeStatus.ofValue : String → Option TradeStatus
  | "BUILDING" => some .BUILDING
  | "HOLDING_STRONG" => some .HOLDING_STRONG
  | "HOLDING_GOOD" => some .HOLDING_GOOD
  | "HOLDING_NEUTRAL" => some .HOLDING_NEUTRAL
  | "HOLDING_WEAK" => some .HOLDING_WEAK
  | "TAKE_PARTIAL" => some .TAKE_PARTIAL
  | "TAKE_FULL" => some .TAKE_FULL
  | "RUNNER_ACTIVE" => some .RUNNER_ACTIVE
  | "CONSIDER_ROLL" => some .CONSIDER_ROLL
  | "WARNING_THETA" => some .WARNING_THETA
  | "WARNING_GAMMA" => some .WARNING_GAMMA
  | "WARNING_IV_CRUSH" => some .WARNING_IV_CRUSH
  | "WARNING_LIQUIDITY" => some .WARNING_LIQUIDITY
  | "EXIT_STOP" => some .EXIT_STOP
  | "EXIT_TARGET" => some .EXIT_TARGET
  | "EXIT_TIME" => some .EXIT_TIME
  | _ => none

/-- Recommended action, mirroring the Action enum. -/
inductive Action where
  | HOLD
  | ADD
  | TIGHTEN_STOP
  | TAKE_PARTIAL
  | TAKE_FULL
  | CLOSE_RUNNER
  | ROLL_OUT
  | ROLL_UP
  | ROLL_DOWN
  | EXIT_NOW
  | REDUCE_SIZE
deriving DecidableEq

/-- String value of an Action, as stored by the Python Enum. -/
def Action.value : Action → String
  | .HOLD => "HOLD"
  | .ADD => "ADD"
  | .TIGHTEN_STOP => "TIGHTEN_STOP"
  | .TAKE_PARTIAL => "TAKE_PARTIAL"
  | .TAKE_FULL => "TAKE_FULL"
  | .CLOSE_RUNNER => "CLOSE_RUNNER"
  | .ROLL_OUT => "ROLL_OUT"
  | .ROLL_UP => "ROLL_UP"
  | .ROLL_DOWN => "ROLL_DOWN"
  | .EXIT_NOW => "EXIT_NOW"
  | .REDUCE_SIZE => "REDUCE_SIZE"

/-- Reconstruction of an Action from its stored string value. -/
def Action.ofValue : String → Option Action
  | "HOLD" => some .HOLD
  | "ADD" => some .ADD
  | "TIGHTEN_STOP" => some .TIGHTEN_STOP
  | "TAKE_PARTIAL" => some .TAKE_PARTIAL
  | "TAKE_FULL" => some .TAKE_FULL
  | "CLOSE_RUNNER" => some .CLOSE_RUNNER
  | "ROLL_OUT" => some .ROLL_OUT
  | "ROLL_UP" => some .ROLL_UP
  | "ROLL_DOWN" => some .ROLL_DOWN
  | "EXIT_NOW" => some .EXIT_NOW
  | "REDUCE_SIZE" => some .REDUCE_SIZE
  | _ => none

/-- Market regime classification, mirroring the MarketRegime enum. -/
inductive MarketRegime where
  | LOW_VOL_BULL
  | LOW_VOL_BEAR
  | HIGH_VOL_BULL
  | HIGH_VOL_BEAR
  | NEUTRAL
  | CRASH
deriving DecidableEq

/-- String value of a MarketRegime, as stored by the Python Enum. -/
def MarketRegime.value : MarketRegime → String
  | .LOW_VOL_BULL => "LOW_VOL_BULL"
  | .LOW_VOL_BEAR => "LOW_VOL_BEAR"
  | .HIGH_VOL_BULL => "HIGH_VOL_BULL"
  | .HIGH_VOL_BEAR => "HIGH_VOL_BEAR"
  | .NEUTRAL => "NEUTRAL"
  | .CRASH => "CRASH"

/-- Trend strength classification, mirroring the TrendStrength enum. -/
inductive TrendStrength where
  | STRONG_UP
  | MODERATE_UP
  | WEAK_UP
  | NEUTRAL
  | WEAK_DOWN
  | MODERATE_DOWN
  | STRONG_DOWN
deriving DecidableEq

/-- String value of a TrendStrength, as stored by the Python Enum. -/
def TrendStrength.value : TrendStrength → String
  | .STRONG_UP => "STRONG_UP"
  | .MODERATE_UP => "MODERATE_UP"
  | .WEAK_UP => "WEAK_UP"
  | .NEUTRAL => "NEUTRAL"
  | .WEAK_DOWN => "WEAK_DOWN"
  | .MODERATE_DOWN => "MODERATE_DOWN"
  | .STRONG_DOWN => "STRONG_DOWN"

/-- Greeks sub-record with IV analysis and entry comparison. -/
structure Greeks where
  delta : ℚ
  gamma : ℚ
  theta : ℚ
  vega : ℚ
  rho : ℚ
  iv : ℚ
  iv_rank : ℚ
  iv_percentile : ℚ
  iv_52w_high : ℚ
  iv_52w_low : ℚ
  entry_delta : ℚ
  entry_iv : ℚ
  entry_iv_rank : ℚ
deriving DecidableEq

/-- Property delta_change: delta minus entry delta, zero when entry unset. -/
def Greeks.delta_change (g : Greeks) : ℚ :=
  if g.entry_delta ≠ 0 then g.delta - g.entry_delta else 0

/-- Property iv_change: iv minus entry iv, zero when entry iv unset. -/
def Greeks.iv_change (g : Greeks) : ℚ :=
  if g.entry_iv ≠ 0 then g.iv - g.entry_iv else 0

/-- Theta decay analysis sub-record. -/
structure ThetaAnalysis where
  daily_decay : ℚ
  weekly_decay : ℚ
  decay_rate_pct : ℚ
  acceleration_phase : String
  days_to_acceleration : ℤ
  days_to_critical : ℤ
  value_in_7_days : ℚ
  value_in_14_days : ℚ
  theta_at_expiry_pace : ℚ
deriving DecidableEq

/-- Gamma risk analysis sub-record. -/
structure GammaAnalysis where
  gamma_risk_score : ℚ
  dollar_gamma : ℚ
  gamma_flip_distance : ℚ
  is_near_strike : Bool
  is_near_expiry : Bool
  gamma_explosion_risk : Bool
deriving DecidableEq

/-- Liquidity and execution quality sub-record. -/
structure LiquidityAnalysis where
  bid : ℚ
  ask : ℚ
  spread : ℚ
  spread_pct : ℚ
  volume : ℤ
  open_interest : ℤ
  volume_oi_ratio : ℚ
  liquidity_score : ℚ
deriving DecidableEq

/-- Statistical expected move sub-record. -/
structure ExpectedMove where
  one_sigma_up : ℚ
  one_sigma_down : ℚ
  two_sigma_up : ℚ
  two_sigma_down : ℚ
  prob_above_target : ℚ
  prob_below_stop : ℚ
  prob_itm_at_expiry : ℚ
  expected_value : ℚ
  risk_reward_ratio : ℚ
deriving DecidableEq

/-- Roll recommendation sub-record. -/
structure RollAnalysis where
  should_roll : Bool
  roll_urgency : String
  roll_reason : String
  recommended_roll_dte : ℤ
  recommended_roll_strike : ℚ
  roll_type : String
  debit_to_roll : ℚ
  credit_to_roll : ℚ
  net_roll_cost : ℚ
deriving DecidableEq

/-- Property roll_action: maps the roll type to an Action. -/
def RollAnalysis.roll_action (r : RollAnalysis) : Action :=
  if !r.should_roll then Action.HOLD
  else if strHas r.roll_type "UP" then Action.ROLL_UP
  else if strHas r.roll_type "DOWN" then Action.ROLL_DOWN
  else Action.ROLL_OUT

/-- Market context sub-record (trend, momentum, volatility, levels, regime). -/
structure MarketContext where
  trend_daily : TrendStrength
  trend_weekly : TrendStrength
  trend_alignment : Bool
  rsi : ℚ
  rsi_divergence : String
  macd_signal : String
  macd_histogram : ℚ
  macd_crossover : String
  atr : ℚ
  atr_percent : ℚ
  atr_expanding : Bool
  volume_trend : String
  volume_vs_avg : ℚ
  support_1 : ℚ
  support_2 : ℚ
  resistance_1 : ℚ
  resistance_2 : ℚ
  regime : MarketRegime
  vix_level : ℚ
  vix_term_structure : String
deriving DecidableEq

/-- Property momentum_score: RSI, MACD and trend contributions clamped to
the range from minus 100 to 100. -/
def MarketContext.momentum_score (m : MarketContext) : ℚ :=
  let score : ℚ := 0
  let score := score +
    (if m.rsi > 70 then 30
     else if m.rsi > 50 then (m.rsi - 50) * 1.5
     else if m.rsi < 30 then -30
     else -((50 - m.rsi) * 1.5))
  let score := score +
    (if m.macd_signal = "BULLISH" then 20
     else if m.macd_signal = "BEARISH" then -20 else 0)
  let score := score +
    (match m.trend_daily with
     | .STRONG_UP => 30
     | .MODERATE_UP => 20
     | .WEAK_UP => 10
     | .NEUTRAL => 0
     | .WEAK_DOWN => -10
     | .MODERATE_DOWN => -20
     | .STRONG_DOWN => -30)
  max (-100) (min 100 score)

/-- One entry of the scenario table: stock price, estimated option price,
dollar and percent P&L. -/
structure ScenarioEntry where
  stock_price : ℚ
  option_price : ℚ
  pnl : ℚ
  pnl_pct : ℚ
deriving DecidableEq

/-- P&L scenario projections sub-record; the Python label-keyed dict is
modelled as an insertion-ordered association list. -/
structure ScenarioAnalysis where
  scenarios : List (String × ScenarioEntry)
  breakeven_price : ℚ
  max_profit_price : ℚ
  max_loss : ℚ
deriving DecidableEq

/-- The fixed component weights used by the scorer. -/
structure ScoreWeights where
  pnl : ℚ
  theta : ℚ
  gamma : ℚ
  iv : ℚ
  liquidity : ℚ
  momentum : ℚ
  probability : ℚ
deriving DecidableEq

/-- The default weight dict of the PositionScore dataclass. -/
def defaultWeights : ScoreWeights :=
  { pnl := 0.20, theta := 0.20, gamma := 0.10, iv := 0.15,
    liquidity := 0.10, momentum := 0.15, probability := 0.10 }

/-- Position health score sub-record. -/
structure PositionScore where
  overall_score : ℚ
  pnl_score : ℚ
  theta_score : ℚ
  gamma_score : ℚ
  iv_score : ℚ
  liquidity_score : ℚ
  momentum_score : ℚ
  probability_score : ℚ
  weights : ScoreWeights
deriving DecidableEq

/-- Stop management sub-record. -/
structure StopLevels where
  original : ℚ
  breakeven : ℚ
  atr_trail : ℚ
  percent_trail : ℚ
  support_based : ℚ
  runner_trail : ℚ
  recommended : ℚ
  original_option : ℚ
  recommended_option : ℚ
  runner_option : ℚ
  method : String
  needs_update : Bool
  distance_to_stop : ℚ
  distance_to_stop_atr : ℚ
  risk_at_stop : ℚ
  risk_at_stop_pct : ℚ
deriving DecidableEq

/-- Position scaling state sub-record. -/
structure ScalingState where
  t1_target_pct : ℚ
  t2_target_pct : ℚ
  t1_size_pct : ℚ
  t2_size_pct : ℚ
  runner_size_pct : ℚ
  t1_triggered : Bool
  t1_price : ℚ
  t1_date : String
  t2_triggered : Bool
  t2_price : ℚ
  t2_date : String
  runner_active : Bool
  runner_closed : Bool
  runner_exit_reason : String
  runner_exit_price : ℚ
  extended_target : ℚ
  runner_trail_level : ℚ
deriving DecidableEq

/-- Alerts and warnings are human-readable strings in the source; they are
modelled as tagged values carrying the data interpolated into the string,
so that list membership is exactly string identity. -/
inductive Alert where
  | t1_triggered (target_pct : ℚ)
  | runner_active (extended_target : ℚ)
  | update_stop (old_stop new_stop : ℚ)
  | dte_critical (dte : ℤ)
  | dte_warning (dte : ℤ)
  | gamma_explosion
  | roll (urgency reason : String)
  | iv_rank_high (rank : ℚ)
  | iv_rank_low (rank : ℚ)
  | iv_dropped (change : ℚ)
  | low_liquidity (score : ℚ)
  | trend_not_aligned
deriving DecidableEq

/-- The alert text containing the substring T1 is exactly the T1 alert. -/
def Alert.mentions_t1 : Alert → Bool
  | .t1_triggered _ => true
  | _ => false

/-- The complete position record with all eleven sub-records, status and
configuration, mirroring the Position dataclass. -/
structure Position where
  id : String
  symbol : String
  position_type : PositionType
  strike : ℚ
  expiration : String
  quantity : ℤ
  entry_date : String
  entry_stock_price : ℚ
  entry_option_price : ℚ
  starting_dte : ℤ
  stop_price : ℚ
  target_price : ℚ
  current_stock_price : ℚ
  current_option_price : ℚ
  current_dte : ℤ
  highest_since_entry : ℚ
  lowest_since_entry : ℚ
  greeks : Greeks
  theta_analysis : ThetaAnalysis
  gamma_analysis : GammaAnalysis
  liquidity : LiquidityAnalysis
  expected_move : ExpectedMove
  roll_analysis : RollAnalysis
  market : MarketContext
  scenarios : ScenarioAnalysis
  score : PositionScore
  stops : StopLevels
  scaling : ScalingState
  status : TradeStatus
  action : Action
  action_detail : String
  alerts : List Alert
  warnings : List Alert
  breakeven_trigger_pct : ℚ
  atr_trail_trigger_pct : ℚ
  atr_trail_mult : ℚ
  runner_trail_mult : ℚ
  dte_warning : ℤ
  dte_critical : ℤ
  runner_min_dte : ℤ
deriving DecidableEq

/-- Property is_call. -/
def Position.is_call (p : Position) : Bool :=
  p.position_type = PositionType.LONG_CALL

/-- Property pnl_percent: option P&L in percent of the entry premium. -/
def Position.pnl_percent (p : Position) : ℚ :=
  if p.entry_option_price ≤ 0 then 0
  else (p.current_option_price - p.entry_option_price) / p.entry_option_price * 100

/-- Property pnl_dollars. -/
def Position.pnl_dollars (p : Position) : ℚ :=
  (p.current_option_price - p.entry_option_price) * p.quantity * 100

/-- Property stock_pnl_percent. -/
def Position.stock_pnl_percent (p : Position) : ℚ :=
  if p.entry_stock_price ≤ 0 then 0
  else (p.current_stock_price - p.entry_stock_price) / p.entry_stock_price * 100

/-- Property moneyness: how far ITM/OTM as a percentage of the strike. -/
def Position.moneyness (p : Position) : ℚ :=
  if p.is_call then (p.current_stock_price - p.strike) / p.strike * 100
  else (p.strike - p.current_stock_price) / p.strike * 100

/-- Property is_itm. -/
def Position.is_itm (p : Position) : Bool :=
  if p.is_call then p.current_stock_price > p.strike
  else p.current_stock_price < p.strike

/-- The transcendental float primitives of the Python math module.  Every
Python float is an exact rational, so the library functions are modelled as
unspecified rational-valued parameters; no claim in this development depends
on their values. -/
structure MathPrims where
  sqrtQ : ℚ → ℚ
  expQ : ℚ → ℚ
  logQ : ℚ → ℚ
  erfQ : ℚ → ℚ
  piQ : ℚ

/-- Python round(x, n), modelled as round-half-up at n decimal digits (the
difference from float banker's rounding only affects fields no claim
touches). -/
def roundTo (x : ℚ) (n : ℕ) : ℚ := ((round (x * 10 ^ n) : ℤ) : ℚ) / 10 ^ n

/-- Standard normal CDF polynomial approximation from options_analytics. -/
def oa_norm_cdf (mp : MathPrims) (x : ℚ) : ℚ :=
  let a1 : ℚ := 0.254829592
  let a2 : ℚ := -0.284496736
  let a3 : ℚ := 1.421413741
  let a4 : ℚ := -1.453152027
  let a5 : ℚ := 1.061405429
  let p : ℚ := 0.3275911
  let sign : ℚ := if x ≥ 0 then 1 else -1
  let x := |x| / mp.sqrtQ 2
  let t : ℚ := 1.0 / (1.0 + p * x)
  let y : ℚ := 1.0 - (((((a5 * t + a4) * t) + a3) * t + a2) * t + a1) * t * mp.expQ (-x * x)
  0.5 * (1.0 + sign * y)

/-- Standard normal PDF from options_analytics. -/
def oa_norm_pdf (mp : MathPrims) (x : ℚ) : ℚ :=
  mp.expQ (-0.5 * x * x) / mp.sqrtQ (2 * mp.piQ)

/-- Result dict of calculate_bs_greeks. -/
structure BsGreeks where
  delta : ℚ
  gamma : ℚ
  theta : ℚ
  vega : ℚ
deriving DecidableEq

/-- Black-Scholes Greeks from options_analytics.calculate_bs_greeks. -/
def calculate_bs_greeks (mp : MathPrims) (S K T r sigma : ℚ)
    (option_type : String) : BsGreeks :=
  if T ≤ 0 ∨ sigma ≤ 0 ∨ S ≤ 0 ∨ K ≤ 0 then
    { delta := 0.5, gamma := 0, theta := 0, vega := 0 }
  else
    let sqrt_T := mp.sqrtQ T
    let d1 := (mp.logQ (S / K) + (r + 0.5 * sigma ^ 2) * T) / (sigma * sqrt_T)
    let d2 := d1 - sigma * sqrt_T
    let delta :=
      if option_type.toLower = "call" then oa_norm_cdf mp d1
      else oa_norm_cdf mp d1 - 1
    let theta :=
      if option_type.toLower = "call" then
        (-S * oa_norm_pdf mp d1 * sigma / (2 * sqrt_T)
          - r * K * mp.expQ (-r * T) * oa_norm_cdf mp d2) / 365
      else
        (-S * oa_norm_pdf mp d1 * sigma / (2 * sqrt_T)
          + r * K * mp.expQ (-r * T) * oa_norm_cdf mp (-d2)) / 365
    let gamma := oa_norm_pdf mp d1 / (S * sigma * sqrt_T)
    let vega := S * oa_norm_pdf mp d1 * sqrt_T / 100
    { delta := roundTo delta 4, gamma := roundTo gamma 6,
      theta := roundTo theta 4, vega := roundTo vega 4 }

/-- Python max over a list of rationals (second component of min/max of a
nonempty history). -/
def listMax : List ℚ → ℚ
  | [] => 0
  | x :: xs => xs.foldl max x

/-- Python min over a list of rationals. -/
def listMin : List ℚ → ℚ
  | [] => 0
  | x :: xs => xs.foldl min x

/-- IV rank and percentile: (iv_rank, iv_percentile, iv_52w_high,
iv_52w_low), from AdvancedAnalytics.calculate_iv_rank. -/
def calculate_iv_rank (current_iv : ℚ) (iv_history : List ℚ) :
    ℚ × ℚ × ℚ × ℚ :=
  if iv_history.length < 20 then (50.0, 50.0, current_iv, current_iv)
  else
    let iv_52w_high := listMax iv_history
    let iv_52w_low := listMin iv_history
    let iv_rank :=
      if iv_52w_high = iv_52w_low then 50.0
      else ((current_iv - iv_52w_low) / (iv_52w_high - iv_52w_low)) * 100
    let days_lower : ℚ := (iv_history.countP (fun iv => iv < current_iv) : ℤ)
    let iv_percentile := (days_lower / (iv_history.length : ℤ)) * 100
    (iv_rank, iv_percentile, iv_52w_high, iv_52w_low)

/-- Theta decay modelling from AdvancedAnalytics.calculate_theta_decay. -/
def calculate_theta_decay (mp : MathPrims) (dte : ℤ)
    (option_price theta : ℚ) : ThetaAnalysis :=
  let daily_decay := |theta|
  let weekly_decay := |theta| * 7
  let decay_rate_pct := if option_price > 0 then |theta| / option_price * 100 else 0
  let acceleration_phase :=
    if dte > 45 then "SLOW"
    else if dte > 21 then "NORMAL"
    else if dte > 7 then "ACCELERATING"
    else "CRITICAL"
  let value_in_7_days :=
    if dte > 7 then
      let decay_factor_7d := if dte > 7 then mp.sqrtQ ((dte : ℚ) / ((dte : ℚ) - 7)) else 2
      max 0 (option_price - |theta| * 7 * decay_factor_7d * 0.7)
    else 0
  let value_in_14_days :=
    if dte > 14 then
      let decay_factor_14d := if dte > 14 then mp.sqrtQ ((dte : ℚ) / ((dte : ℚ) - 14)) else 3
      max 0 (option_price - |theta| * 14 * decay_factor_14d * 0.5)
    else 0
  { daily_decay := daily_decay, weekly_decay := weekly_decay,
    decay_rate_pct := decay_rate_pct,
    acceleration_phase := acceleration_phase,
    days_to_acceleration := max 0 (dte - 21),
    days_to_critical := max 0 (dte - 7),
    value_in_7_days := value_in_7_days,
    value_in_14_days := value_in_14_days,
    theta_at_expiry_pace := 0 }

/-- Gamma risk scoring from AdvancedAnalytics.calculate_gamma_risk. -/
def calculate_gamma_risk (_delta gamma stock_price strike : ℚ) (dte : ℤ)
    (option_price : ℚ) : GammaAnalysis :=
  let dollar_gamma := gamma * stock_price / 100
  let gamma_flip_distance := |stock_price - strike|
  let pct_from_strike := |stock_price - strike| / strike * 100
  let is_near_strike := pct_from_strike < 3
  let is_near_expiry := dte < 7
  let score : ℚ :=
    (if pct_from_strike < 1 then 40
     else if pct_from_strike < 3 then 25
     else if pct_from_strike < 5 then 15 else 0)
  let score := score +
    (if dte < 3 then 40 else if dte < 7 then 30 else if dte < 14 then 15 else 0)
  let gamma_pct := if option_price > 0 then gamma * stock_price / option_price * 100 else 0
  let score := score + (if gamma_pct > 10 then 20 else if gamma_pct > 5 then 10 else 0)
  { gamma_risk_score := min 100 score,
    dollar_gamma := dollar_gamma,
    gamma_flip_distance := gamma_flip_distance,
    is_near_strike := is_near_strike,
    is_near_expiry := is_near_expiry,
    gamma_explosion_risk := is_near_strike && is_near_expiry }

/-- Normal CDF via erf, as defined inline in calculate_expected_move. -/
def em_norm_cdf (mp : MathPrims) (x : ℚ) : ℚ :=
  0.5 * (1 + mp.erfQ (x / mp.sqrtQ 2))

/-- Expected move and touch probabilities from
AdvancedAnalytics.calculate_expected_move. -/
def calculate_expected_move (mp : MathPrims) (stock_price iv : ℚ) (dte : ℤ)
    (strike : ℚ) (is_call : Bool) (stop_price target_price : ℚ) : ExpectedMove :=
  let analysis : ExpectedMove :=
    { one_sigma_up := 0, one_sigma_down := 0, two_sigma_up := 0,
      two_sigma_down := 0, prob_above_target := 0, prob_below_stop := 0,
      prob_itm_at_expiry := 0, expected_value := 0, risk_reward_ratio := 0 }
  if iv ≤ 0 ∨ dte ≤ 0 then analysis
  else
    let period_iv := iv * mp.sqrtQ ((dte : ℚ) / 365)
    let one_sigma := stock_price * period_iv
    let two_sigma := stock_price * period_iv * 2
    let analysis :=
      { analysis with
        one_sigma_up := stock_price + one_sigma,
        one_sigma_down := stock_price - one_sigma,
        two_sigma_up := stock_price + two_sigma,
        two_sigma_down := stock_price - two_sigma }
    let analysis :=
      if one_sigma > 0 then
        let z_target := (target_price - stock_price) / one_sigma
        let z_stop := (stop_price - stock_price) / one_sigma
        let z_strike := (strike - stock_price) / one_sigma
        if is_call then
          { analysis with
            prob_above_target := (1 - em_norm_cdf mp z_target) * 100,
            prob_below_stop := em_norm_cdf mp z_stop * 100,
            prob_itm_at_expiry := (1 - em_norm_cdf mp z_strike) * 100 }
        else
          { analysis with
            prob_above_target := em_norm_cdf mp (-z_target) * 100,
            prob_below_stop := (1 - em_norm_cdf mp z_stop) * 100,
            prob_itm_at_expiry := em_norm_cdf mp z_strike * 100 }
      else analysis
    let potential_profit := |target_price - stock_price|
    let potential_loss := |stock_price - stop_price|
    let analysis :=
      if potential_loss > 0 then
        { analysis with risk_reward_ratio := potential_profit / potential_loss }
      else analysis
    { analysis with
      expected_value :=
        analysis.prob_above_target / 100 * potential_profit
          - analysis.prob_below_stop / 100 * potential_loss }

/-- Roll urgency scoring from
AdvancedAnalytics.calculate_roll_recommendation. -/
def calculate_roll_recommendation (pos : Position) : RollAnalysis :=
  let analysis : RollAnalysis :=
    { should_roll := false, roll_urgency := "NONE", roll_reason := "",
      recommended_roll_dte := 0, recommended_roll_strike := 0, roll_type := "",
      debit_to_roll := 0, credit_to_roll := 0, net_roll_cost := 0 }
  let dte := pos.current_dte
  let pnl_pct := pos.pnl_percent
  let theta_decay_pct := pos.theta_analysis.decay_rate_pct
  let iv_rank := pos.greeks.iv_rank
  let (reasons, urgency_score) : List String × ℚ :=
    if dte ≤ 7 then (["DTE critical (<7 days)"], 40)
    else if dte ≤ 14 then (["DTE warning (<14 days)"], 25)
    else if dte ≤ 21 ∧ pnl_pct < 30 then
      (["DTE accelerating with limited profit"], 15)
    else ([], 0)
  let (reasons, urgency_score) :=
    if theta_decay_pct > 3 ∧ pnl_pct < 20 then
      (reasons ++ ["High theta decay with low profit"], urgency_score + 20)
    else (reasons, urgency_score)
  let (reasons, urgency_score) :=
    if iv_rank < 20 ∧ pnl_pct > 0 then
      (reasons ++ ["Low IV rank - consider taking profits"], urgency_score + 10)
    else (reasons, urgency_score)
  if urgency_score > 0 then
    let analysis :=
      { analysis with
        should_roll := urgency_score ≥ 30,
        roll_urgency :=
          if urgency_score ≥ 50 then "URGENT"
          else if urgency_score ≥ 30 then "RECOMMENDED"
          else "CONSIDER",
        roll_reason := String.intercalate "; " reasons,
        recommended_roll_dte := if dte < 14 then 30 else 45 }
    if pnl_pct > 50 then
      if pos.is_call ∧ pos.current_stock_price > pos.strike then
        { analysis with
          roll_type := "UP_AND_OUT",
          recommended_roll_strike :=
            pos.strike + (pos.current_stock_price - pos.strike) * 0.5 }
      else if ¬pos.is_call ∧ pos.current_stock_price < pos.strike then
        { analysis with
          roll_type := "DOWN_AND_OUT",
          recommended_roll_strike :=
            pos.strike - (pos.strike - pos.current_stock_price) * 0.5 }
      else
        { analysis with roll_type := "OUT", recommended_roll_strike := pos.strike }
    else
      { analysis with roll_type := "OUT", recommended_roll_strike := pos.strike }
  else analysis

/-- One scenario row of AdvancedAnalytics.calculate_scenarios. -/
def scenarioRow (pos : Position) (stock option delta gamma entry : ℚ)
    (label : String) (price : ℚ) : String × ScenarioEntry :=
  let move := price - stock
  let delta_impact := move * |delta|
  let gamma_impact := 0.5 * move ^ 2 * gamma
  let est_option :=
    if pos.is_call then
      if move > 0 then option + delta_impact + gamma_impact
      else option + delta_impact - gamma_impact
    else
      if move < 0 then option - delta_impact + gamma_impact
      else option - delta_impact - gamma_impact
  let est_option := max 0.01 est_option
  let pnl := (est_option - entry) * pos.quantity * 100
  let pnl_pct := if entry > 0 then (est_option - entry) / entry * 100 else 0
  (label, { stock_price := price, option_price := est_option,
            pnl := pnl, pnl_pct := pnl_pct })

/-- P&L scenario ladder from AdvancedAnalytics.calculate_scenarios. -/
def calculate_scenarios (pos : Position) : ScenarioAnalysis :=
  let stock := pos.current_stock_price
  let option := pos.current_option_price
  let delta := pyOr pos.greeks.delta 0.5
  let gamma := pyOr pos.greeks.gamma 0.02
  let entry := pos.entry_option_price
  let levels : List (String × ℚ) :=
    [("Stop", pos.stop_price), ("Entry", pos.entry_stock_price),
     ("Current", stock), ("-5%", stock * 0.95), ("-3%", stock * 0.97),
     ("+3%", stock * 1.03), ("+5%", stock * 1.05),
     ("Target", pos.target_price), ("Strike", pos.strike)]
  let scenarios := levels.map (fun lp =>
    scenarioRow pos stock option delta gamma entry lp.1 lp.2)
  let breakeven_price :=
    if delta ≠ 0 then
      let option_loss_to_be := entry - option
      let stock_move_needed := option_loss_to_be / |delta|
      if pos.is_call then stock + stock_move_needed else stock - stock_move_needed
    else 0
  { scenarios := scenarios, breakeven_price := breakeven_price,
    max_profit_price := 0, max_loss := entry * pos.quantity * 100 }

/-- The P&L sub-score piecewise map of calculate_position_score. -/
def pnl_score_of (pnl : ℚ) : ℚ :=
  if pnl ≥ 100 then 100
  else if pnl ≥ 50 then 80 + (pnl - 50) * 0.4
  else if pnl ≥ 20 then 60 + (pnl - 20) * 0.67
  else if pnl ≥ 0 then 50 + pnl * 0.5
  else if pnl ≥ -20 then 30 + (pnl + 20) * 1
  else if pnl ≥ -50 then 10 + (pnl + 50) * 0.67
  else max 0 (10 + pnl * 0.2)

/-- The theta sub-score piecewise map of calculate_position_score. -/
def theta_score_of (dte : ℤ) : ℚ :=
  if dte > 45 then 90
  else if dte > 21 then 70 + ((dte : ℚ) - 21) * 0.83
  else if dte > 14 then 50 + ((dte : ℚ) - 14) * 2.86
  else if dte > 7 then 25 + ((dte : ℚ) - 7) * 3.57
  else max 0 ((dte : ℚ) * 3.57)

/-- The IV-environment sub-score map of calculate_position_score,
including the IV-crush adjustment. -/
def iv_score_of (iv_rank iv_change : ℚ) : ℚ :=
  let iv_score : ℚ :=
    if iv_rank ≤ 20 then 90
    else if iv_rank ≤ 40 then 75
    else if iv_rank ≤ 60 then 60
    else if iv_rank ≤ 80 then 40
    else 25
  if iv_change < -0.05 then max 0 (iv_score - 20) else iv_score

/-- The momentum sub-score map of calculate_position_score. -/
def momentum_score_of (is_call : Bool) (momentum : ℚ) : ℚ :=
  let momentum_score : ℚ :=
    if is_call then 50 + momentum * 0.5 else 50 - momentum * 0.5
  max 0 (min 100 momentum_score)

/-- The probability sub-score map of calculate_position_score. -/
def probability_score_of (prob : ℚ) : ℚ := min 100 (prob * 1.5)

/-- Composite 0 to 100 health score from
AdvancedAnalytics.calculate_position_score. -/
def calculate_position_score (pos : Position) : PositionScore :=
  let pnl_score := pnl_score_of pos.pnl_percent
  let theta_score := theta_score_of pos.current_dte
  let gamma_score : ℚ := 100 - pos.gamma_analysis.gamma_risk_score
  let iv_score := iv_score_of pos.greeks.iv_rank pos.greeks.iv_change
  let liquidity_score := pos.liquidity.liquidity_score
  let momentum_score := momentum_score_of pos.is_call pos.market.momentum_score
  let probability_score :=
    probability_score_of pos.expected_move.prob_above_target
  let w := defaultWeights
  { overall_score :=
      pnl_score * w.pnl + theta_score * w.theta + gamma_score * w.gamma +
      iv_score * w.iv + liquidity_score * w.liquidity +
      momentum_score * w.momentum + probability_score * w.probability,
    pnl_score := pnl_score, theta_score := theta_score,
    gamma_score := gamma_score, iv_score := iv_score,
    liquidity_score := liquidity_score, momentum_score := momentum_score,
    probability_score := probability_score, weights := w }

/-- Last element of a rational list, zero when empty (Python index -1 on
the lists below is only reached when nonempty). -/
def lastD (l : List ℚ) : ℚ := l.getLastD 0

/-- RSI from TechnicalAnalysis.calculate_rsi. -/
def calculate_rsi (closes : List ℚ) (period : ℕ) : ℚ :=
  if closes.length < period + 1 then 50.0
  else
    let changes := List.zipWith (fun b a => b - a) (closes.drop 1) closes
    let gains := changes.map (fun c => max 0 c)
    let losses := changes.map (fun c => max 0 (-c))
    if gains.length < period then 50.0
    else
      let avg_gain := (takeLast period gains).sum / period
      let avg_loss := (takeLast period losses).sum / period
      if avg_loss = 0 then 100.0
      else
        let rs := avg_gain / avg_loss
        100 - 100 / (1 + rs)

/-- EMA series from TechnicalAnalysis.calculate_ema. -/
def calculate_ema (values : List ℚ) (period : ℕ) : List ℚ :=
  if values.length < period then values
  else
    let mult : ℚ := 2 / ((period : ℚ) + 1)
    let e0 := (values.take period).sum / period
    let step := fun (st : List ℚ × ℚ) (price : ℚ) =>
      let v := (price - st.2) * mult + st.2
      (st.1 ++ [v], v)
    ((values.drop period).foldl step ([e0], e0)).1

/-- MACD line, signal and histogram from
TechnicalAnalysis.calculate_macd. -/
def calculate_macd (closes : List ℚ) : ℚ × ℚ × ℚ :=
  if closes.length < 35 then (0, 0, 0)
  else
    let ema12 := calculate_ema closes 12
    let ema26 := calculate_ema closes 26
    let min_len := min ema12.length ema26.length
    let macd_line :=
      List.zipWith (fun e12 e26 => e12 - e26)
        (takeLast min_len ema12) (takeLast min_len ema26)
    if macd_line.length < 9 then (0, 0, 0)
    else
      let signal := calculate_ema macd_line 9
      (lastD macd_line, lastD signal, lastD macd_line - lastD signal)

/-- ATR from TechnicalAnalysis.calculate_atr. -/
def calculate_atr (highs lows closes : List ℚ) (period : ℕ) : ℚ :=
  if closes.length < period + 1 then 0
  else
    let hl := (highs.drop 1).zip (lows.drop 1)
    let true_ranges :=
      List.zipWith
        (fun (p : ℚ × ℚ) (cprev : ℚ) =>
          max (p.1 - p.2) (max |p.1 - cprev| |p.2 - cprev|))
        hl closes
    (takeLast period true_ranges).sum / period

/-- Support and resistance levels from
TechnicalAnalysis.calculate_support_resistance. -/
def calculate_support_resistance (highs lows closes : List ℚ) :
    ℚ × ℚ × ℚ × ℚ :=
  if closes.length < 20 then (0, 0, 0, 0)
  else
    let recent_lows := (takeLast 20 lows).mergeSort (fun a b => a ≤ b)
    let recent_highs := (takeLast 20 highs).mergeSort (fun a b => b ≤ a)
    let support_1 := recent_lows.headD 0
    let support_2 := recent_lows.getD (min 4 (recent_lows.length - 1)) 0
    let resistance_1 := recent_highs.headD 0
    let resistance_2 := recent_highs.getD (min 4 (recent_highs.length - 1)) 0
    (support_1, support_2, resistance_1, resistance_2)

/-- Trend classification from TechnicalAnalysis.determine_trend. -/
def determine_trend (closes : List ℚ) : TrendStrength :=
  if closes.length < 50 then TrendStrength.NEUTRAL
  else
    let ema9 := calculate_ema closes 9
    let ema21 := calculate_ema closes 21
    let ema50 := calculate_ema closes 50
    if ema9.isEmpty ∨ ema21.isEmpty ∨ ema50.isEmpty then TrendStrength.NEUTRAL
    else
      let price := lastD closes
      let e9 := lastD ema9
      let e21 := lastD ema21
      let e50 := lastD ema50
      if price > e9 ∧ e9 > e21 ∧ e21 > e50 then
        let pct_above := (price - e50) / e50 * 100
        if pct_above > 5 then TrendStrength.STRONG_UP else TrendStrength.MODERATE_UP
      else if price < e9 ∧ e9 < e21 ∧ e21 < e50 then
        let pct_below := (e50 - price) / e50 * 100
        if pct_below > 5 then TrendStrength.STRONG_DOWN else TrendStrength.MODERATE_DOWN
      else if price > e21 then TrendStrength.WEAK_UP
      else if price < e21 then TrendStrength.WEAK_DOWN
      else TrendStrength.NEUTRAL

/-- Stock snapshot fields consumed by the fetch step. -/
structure StockSnapshot where
  price : ℚ
deriving DecidableEq

/-- Option snapshot fields consumed by the fetch step. -/
structure OptionSnapshot where
  bid : ℚ
  ask : ℚ
  last : ℚ
  mark : ℚ
  volume : ℤ
  open_interest : ℤ
  delta : ℚ
  gamma : ℚ
  theta : ℚ
  vega : ℚ
  iv : ℚ
deriving DecidableEq

/-- One daily bar of the stock history. -/
structure Bar where
  c : ℚ
  h : ℚ
  l : ℚ
  v : ℚ
deriving DecidableEq

/-- The market data an update cycle would fetch, passed in explicitly: the
stock and option snapshots, the days until expiration (the date arithmetic
of the source), the IV history, the price history, and the current date
string. -/
structure FetchData where
  stock : StockSnapshot
  option : OptionSnapshot
  dte_days : ℤ
  iv_history : List ℚ
  history : List Bar
  today : String

/-- The pure effect of ProfessionalTradeManager._fetch_live_data given the
snapshots it would have fetched. -/
def fetch_live_data (f : FetchData) (pos : Position) : Position :=
  let current_stock_price :=
    if f.stock.price ≠ 0 then f.stock.price else pos.current_stock_price
  let current_option_price :=
    if f.option.mark ≠ 0 ∨ f.option.last ≠ 0 then pyOr f.option.mark f.option.last
    else pos.current_option_price
  let greeks :=
    { pos.greeks with
      delta := pyOr (pyOr f.option.delta pos.greeks.delta) pos.greeks.entry_delta,
      gamma := pyOr f.option.gamma pos.greeks.gamma,
      theta := pyOr f.option.theta pos.greeks.theta,
      vega := pyOr f.option.vega pos.greeks.vega,
      iv := pyOr f.option.iv pos.greeks.iv }
  let spread := f.option.ask - f.option.bid
  let mid :=
    if f.option.ask > 0 then (f.option.bid + f.option.ask) / 2
    else current_option_price
  let spread_pct := if mid > 0 then spread / mid * 100 else 0
  let volume_oi_ratio :=
    if f.option.open_interest > 0 then
      (f.option.volume : ℚ) / (f.option.open_interest : ℚ)
    else 0
  let score : ℚ := 50
  let score := score +
    (if spread_pct ≤ 1 then 25 else if spread_pct ≤ 3 then 15
     else if spread_pct > 10 then -25 else 0)
  let score := score +
    (if f.option.open_interest ≥ 1000 then 15
     else if f.option.open_interest ≥ 100 then 5
     else if f.option.open_interest < 50 then -15 else 0)
  let score := score + (if f.option.volume ≥ 100 then 10 else 0)
  let liquidity : LiquidityAnalysis :=
    { bid := f.option.bid, ask := f.option.ask, spread := spread,
      spread_pct := spread_pct, volume := f.option.volume,
      open_interest := f.option.open_interest,
      volume_oi_ratio := volume_oi_ratio,
      liquidity_score := max 0 (min 100 score) }
  let current_dte := max 0 f.dte_days
  let pos :=
    { pos with
      current_stock_price := current_stock_price,
      current_option_price := current_option_price,
      greeks := greeks, liquidity := liquidity, current_dte := current_dte }
  if pos.is_call then
    { pos with
      highest_since_entry := max pos.highest_since_entry pos.current_stock_price }
  else
    let lowest :=
      if pos.lowest_since_entry = 0 then pos.current_stock_price
      else pos.lowest_since_entry
    { pos with lowest_since_entry := min lowest pos.current_stock_price }

/-- ProfessionalTradeManager._calculate_iv_metrics given the IV history it
would have fetched. -/
def calculate_iv_metrics (iv_history : List ℚ) (pos : Position) : Position :=
  if iv_history.isEmpty then pos
  else
    let r := calculate_iv_rank (pyOr pos.greeks.iv 0.3) iv_history
    { pos with greeks :=
        { pos.greeks with
          iv_rank := r.1, iv_percentile := r.2.1,
          iv_52w_high := r.2.2.1, iv_52w_low := r.2.2.2 } }

/-- ProfessionalTradeManager._analyze_market given the stock history it
would have fetched. -/
def analyze_market (history : List Bar) (pos : Position) : Position :=
  if history.isEmpty then pos
  else
    let closes := history.map (·.c)
    let highs := history.map (·.h)
    let lows := history.map (·.l)
    let volumes := history.map (·.v)
    let trend_daily := determine_trend closes
    let rsi := calculate_rsi closes 14
    let macd := calculate_macd closes
    let hist := macd.2.2
    let macd_signal :=
      if hist > 0 then "BULLISH" else if hist < 0 then "BEARISH" else "NEUTRAL"
    let atr := calculate_atr highs lows closes 14
    let atr_percent :=
      if pos.current_stock_price > 0 then atr / pos.current_stock_price * 100 else 0
    let sr := calculate_support_resistance highs lows closes
    let volume_vs_avg :=
      if volumes.length ≥ 20 then
        let avg_vol := (takeLast 20 volumes).sum / 20
        if avg_vol > 0 then lastD volumes / avg_vol else 1.0
      else pos.market.volume_vs_avg
    let trend_alignment :=
      if trend_daily = TrendStrength.STRONG_UP ∨ trend_daily = TrendStrength.MODERATE_UP then
        pos.is_call
      else if trend_daily = TrendStrength.STRONG_DOWN ∨ trend_daily = TrendStrength.MODERATE_DOWN then
        !pos.is_call
      else false
    { pos with market :=
        { pos.market with
          trend_daily := trend_daily, rsi := rsi,
          macd_histogram := hist, macd_signal := macd_signal,
          atr := atr, atr_percent := atr_percent,
          support_1 := sr.1, support_2 := sr.2.1,
          resistance_1 := sr.2.2.1, resistance_2 := sr.2.2.2,
          volume_vs_avg := volume_vs_avg,
          trend_alignment := trend_alignment } }

/-- Option-level stop via the delta-gamma approximation, the body of the
per-attribute loop in _calculate_stops. -/
def optionStopFor (pos : Position) (delta gamma stock_stop : ℚ) : ℚ :=
  let dist := |pos.current_stock_price - stock_stop|
  let delta_impact := dist * |delta|
  let gamma_impact := 0.5 * dist ^ 2 * gamma
  max 0.01 (pos.current_option_price - delta_impact - gamma_impact)

/-- The ratchet rule of _calculate_stops: a call takes the max of the
previous recommendation (with falsy zero fallback) and the new candidate, a
put takes the new candidate when unset and the min otherwise. -/
def ratchet_stop (is_call : Bool) (prev new_stop : ℚ) : ℚ :=
  if is_call then max (pyOr prev 0) new_stop
  else if prev = 0 then new_stop
  else min prev new_stop

/-- Stop-ladder computation and ratchet from
ProfessionalTradeManager._calculate_stops. -/
def calculate_stops (pos : Position) : Position :=
  let atr := pyOr pos.market.atr (pos.current_stock_price * 0.015)
  let breakeven :=
    if pos.is_call then pos.entry_stock_price + atr * 0.25
    else pos.entry_stock_price - atr * 0.25
  let atr_trail :=
    if pos.is_call then pos.highest_since_entry - atr * pos.atr_trail_mult
    else pos.lowest_since_entry + atr * pos.atr_trail_mult
  let support_based :=
    if pos.is_call ∧ pos.market.support_1 > 0 then
      pos.market.support_1 - atr * 0.25
    else pos.stops.support_based
  let runner_trail :=
    if pos.is_call then pos.highest_since_entry - atr * pos.runner_trail_mult
    else pos.lowest_since_entry + atr * pos.runner_trail_mult
  let pnl_pct := pos.pnl_percent
  let (new_stop, method) :=
    if pos.scaling.runner_active then (runner_trail, "RUNNER_TRAIL")
    else if pnl_pct ≥ pos.atr_trail_trigger_pct then (atr_trail, "ATR_TRAIL")
    else if pnl_pct ≥ pos.breakeven_trigger_pct then (breakeven, "BREAKEVEN")
    else (pos.stop_price, "ORIGINAL")
  let recommended := ratchet_stop pos.is_call pos.stops.recommended new_stop
  let needs_update := |recommended - pos.stop_price| > 0.01
  let distance_to_stop := |pos.current_stock_price - recommended|
  let distance_to_stop_atr := if atr > 0 then distance_to_stop / atr else 0
  let delta := pyOr pos.greeks.delta 0.5
  let gamma := pyOr pos.greeks.gamma 0.02
  let original_option :=
    if pos.stops.original = 0 then pos.stops.original_option
    else optionStopFor pos delta gamma pos.stops.original
  let recommended_option :=
    if recommended = 0 then pos.stops.recommended_option
    else optionStopFor pos delta gamma recommended
  let runner_option :=
    if runner_trail = 0 then pos.stops.runner_option
    else optionStopFor pos delta gamma runner_trail
  let risk_at_stop := (pos.current_option_price - recommended_option) * pos.quantity * 100
  let risk_at_stop_pct :=
    if pos.entry_option_price > 0 then
      (pos.current_option_price - recommended_option) / pos.entry_option_price * 100
    else 0
  { pos with stops :=
      { pos.stops with
        breakeven := breakeven, atr_trail := atr_trail,
        support_based := support_based, runner_trail := runner_trail,
        method := method, recommended := recommended,
        needs_update := needs_update,
        distance_to_stop := distance_to_stop,
        distance_to_stop_atr := distance_to_stop_atr,
        original_option := original_option,
        recommended_option := recommended_option,
        runner_option := runner_option,
        risk_at_stop := risk_at_stop,
        risk_at_stop_pct := risk_at_stop_pct } }

/-- The T1 trigger block of _check_scaling. -/
def scaling_t1_step (today : String) (pos : Position) (s : ScalingState) :
    ScalingState :=
  if ¬s.t1_triggered ∧ pos.pnl_percent ≥ s.t1_target_pct then
    { s with t1_triggered := true, t1_price := pos.current_option_price,
             t1_date := today }
  else s

/-- The T2 trigger block of _check_scaling: fires the flag, activates the
runner and sets the extended target. -/
def scaling_t2_step (today : String) (pos : Position) (s : ScalingState) :
    ScalingState :=
  let atr := pyOr pos.market.atr (pos.current_stock_price * 0.015)
  if ¬s.t2_triggered ∧ pos.pnl_percent ≥ s.t2_target_pct then
    if pos.is_call then
      { s with t2_triggered := true, t2_price := pos.current_option_price,
               t2_date := today, runner_active := true,
               extended_target := pos.target_price + atr * 0.75 }
    else
      { s with t2_triggered := true, t2_price := pos.current_option_price,
               t2_date := today, runner_active := true,
               extended_target := pos.target_price - atr * 0.75 }
  else s

/-- The runner exit block of _check_scaling: extended target, trail stop,
then the DTE floor (which overrides any reason set in the same call). -/
def scaling_runner_step (pos : Position) (s : ScalingState) : ScalingState :=
  if s.runner_active ∧ ¬s.runner_closed then
    let s :=
      if pos.is_call then
        if pos.current_stock_price ≥ s.extended_target then
          { s with runner_closed := true,
                   runner_exit_reason := "EXTENDED_TARGET",
                   runner_exit_price := pos.current_option_price }
        else if pos.current_stock_price ≤ pos.stops.runner_trail then
          { s with runner_closed := true,
                   runner_exit_reason := "TRAIL_STOP",
                   runner_exit_price := pos.current_option_price }
        else s
      else
        if pos.current_stock_price ≤ s.extended_target then
          { s with runner_closed := true,
                   runner_exit_reason := "EXTENDED_TARGET" }
        else if pos.current_stock_price ≥ pos.stops.runner_trail then
          { s with runner_closed := true,
                   runner_exit_reason := "TRAIL_STOP" }
        else s
    if pos.current_dte ≤ pos.runner_min_dte then
      { s with runner_closed := true, runner_exit_reason := "DTE_CRITICAL" }
    else s
  else s

/-- One-shot scaling trigger and runner exit checks from
ProfessionalTradeManager._check_scaling; today is the date string the
source takes from the clock.  The three sequential blocks of the method
are the three step functions above. -/
def check_scaling (today : String) (pos : Position) : Position :=
  { pos with
    scaling :=
      scaling_runner_step pos
        (scaling_t2_step today pos (scaling_t1_step today pos pos.scaling)) }

/-- The stop-breach predicate of _determine_status. -/
def stop_hit (pos : Position) : Bool :=
  (pos.is_call ∧ pos.current_stock_price ≤ pos.stops.recommended) ∨
  (¬pos.is_call ∧ pos.current_stock_price ≥ pos.stops.recommended)

/-- The target-reached predicate of _determine_status. -/
def target_hit (pos : Position) : Bool :=
  (pos.is_call ∧ pos.current_stock_price ≥ pos.target_price) ∨
  (¬pos.is_call ∧ pos.current_stock_price ≤ pos.target_price)

/-- Ordered-priority status classification from
ProfessionalTradeManager._determine_status; it returns the status and
action (the human-readable action_detail string is presentational and not
modelled). -/
def determine_status (pos : Position) : TradeStatus × Action :=
  let pnl := pos.pnl_percent
  let dte := pos.current_dte
  let score := pos.score.overall_score
  if stop_hit pos ∨ pnl ≤ -50 then
    (TradeStatus.EXIT_STOP, Action.EXIT_NOW)
  else if dte ≤ 7 ∧ pnl < 30 then
    (TradeStatus.EXIT_TIME, Action.EXIT_NOW)
  else if pos.scaling.runner_closed then
    (TradeStatus.EXIT_TARGET, Action.CLOSE_RUNNER)
  else if pos.roll_analysis.roll_urgency = "URGENT" then
    (TradeStatus.CONSIDER_ROLL, pos.roll_analysis.roll_action)
  else if pos.gamma_analysis.gamma_explosion_risk then
    (TradeStatus.WARNING_GAMMA,
      if pnl > 0 then Action.TIGHTEN_STOP else Action.EXIT_NOW)
  else if pos.greeks.iv_change < -0.1 ∧ pnl < 10 then
    (TradeStatus.WARNING_IV_CRUSH, Action.TIGHTEN_STOP)
  else if target_hit pos ∨ pnl ≥ pos.scaling.t2_target_pct then
    if pos.scaling.runner_active then (TradeStatus.RUNNER_ACTIVE, Action.HOLD)
    else (TradeStatus.TAKE_FULL, Action.TAKE_FULL)
  else if pnl ≥ pos.scaling.t1_target_pct then
    (TradeStatus.TAKE_PARTIAL, Action.TAKE_PARTIAL)
  else if dte ≤ 14 ∧ pos.theta_analysis.acceleration_phase = "ACCELERATING" then
    (TradeStatus.WARNING_THETA,
      if pnl > 0 then Action.ROLL_OUT else Action.EXIT_NOW)
  else if pos.liquidity.liquidity_score < 30 then
    (TradeStatus.WARNING_LIQUIDITY, Action.REDUCE_SIZE)
  else if score ≥ 75 ∧ pos.market.trend_alignment then
    (TradeStatus.HOLDING_STRONG, Action.HOLD)
  else if score ≥ 60 then
    (TradeStatus.HOLDING_GOOD, Action.HOLD)
  else if score ≥ 45 then
    (TradeStatus.HOLDING_NEUTRAL,
      if pnl > 20 then Action.TIGHTEN_STOP else Action.HOLD)
  else (TradeStatus.HOLDING_WEAK, Action.TIGHTEN_STOP)

/-- Alert and warning generation from
ProfessionalTradeManager._generate_alerts; each formatted string is
represented by the tagged value of its interpolated data. -/
def generate_alerts (pos : Position) : Position :=
  let alerts := pos.alerts
  let warnings := pos.warnings
  let alerts :=
    if pos.scaling.t1_triggered ∧ ¬(alerts.any Alert.mentions_t1) then
      alerts ++ [Alert.t1_triggered pos.scaling.t1_target_pct]
    else alerts
  let alerts :=
    if pos.scaling.t2_triggered ∧ pos.scaling.runner_active ∧
        ¬pos.scaling.runner_closed then
      alerts ++ [Alert.runner_active pos.scaling.extended_target]
    else alerts
  let alerts :=
    if pos.stops.needs_update then
      alerts ++ [Alert.update_stop pos.stop_price pos.stops.recommended]
    else alerts
  let alerts :=
    if pos.current_dte ≤ 7 then alerts ++ [Alert.dte_critical pos.current_dte]
    else if pos.current_dte ≤ 14 then alerts ++ [Alert.dte_warning pos.current_dte]
    else alerts
  let alerts :=
    if pos.gamma_analysis.gamma_explosion_risk then
      alerts ++ [Alert.gamma_explosion]
    else alerts
  let warnings :=
    if pos.greeks.iv_rank ≥ 80 then warnings ++ [Alert.iv_rank_high pos.greeks.iv_rank]
    else if pos.greeks.iv_rank ≤ 20 then warnings ++ [Alert.iv_rank_low pos.greeks.iv_rank]
    else warnings
  let warnings :=
    if pos.greeks.iv_change < -0.05 then
      warnings ++ [Alert.iv_dropped pos.greeks.iv_change]
    else warnings
  let alerts :=
    if pos.roll_analysis.roll_urgency = "RECOMMENDED" ∨
        pos.roll_analysis.roll_urgency = "URGENT" then
      alerts ++ [Alert.roll pos.roll_analysis.roll_urgency pos.roll_analysis.roll_reason]
    else alerts
  let warnings :=
    if pos.liquidity.liquidity_score < 40 then
      warnings ++ [Alert.low_liquidity pos.liquidity.liquidity_score]
    else warnings
  let warnings :=
    if ¬pos.market.trend_alignment ∧ pos.pnl_percent < 20 then
      warnings ++ [Alert.trend_not_aligned]
    else warnings
  { pos with alerts := alerts, warnings := warnings }

/-- The full update cycle from ProfessionalTradeManager.update_position,
with the fetched market data passed in (the final save to disk is
persistence, modelled separately). -/
def update_position (mp : MathPrims) (f : FetchData) (pos : Position) :
    Position :=
  let pos := { pos with alerts := [], warnings := [] }
  let pos := fetch_live_data f pos
  let pos := calculate_iv_metrics f.iv_history pos
  let pos := analyze_market f.history pos
  let pos :=
    { pos with
      theta_analysis :=
        calculate_theta_decay mp pos.current_dte pos.current_option_price
          pos.greeks.theta }
  let pos :=
    { pos with
      gamma_analysis :=
        calculate_gamma_risk pos.greeks.delta pos.greeks.gamma
          pos.current_stock_price pos.strike pos.current_dte
          pos.current_option_price }
  let pos :=
    { pos with
      expected_move :=
        calculate_expected_move mp pos.current_stock_price pos.greeks.iv
          pos.current_dte pos.strike pos.is_call pos.stop_price
          pos.target_price }
  let pos := { pos with scenarios := calculate_scenarios pos }
  let pos := calculate_stops pos
  let pos := check_scaling f.today pos
  let pos := { pos with roll_analysis := calculate_roll_recommendation pos }
  let pos := { pos with score := calculate_position_score pos }
  let sa := determine_status pos
  let pos := { pos with status := sa.1, action := sa.2 }
  generate_alerts pos

/-- Aggregated portfolio Greeks totals. -/
structure PortfolioGreeks where
  total_delta : ℚ
  total_gamma : ℚ
  total_theta : ℚ
  total_vega : ℚ
deriving DecidableEq

/-- Per-position contribution of the PortfolioRiskAnalyzer._calculate_greeks
loop body. -/
def positionGreeksContribution (pos : Position) : PortfolioGreeks :=
  let qty : ℚ := pos.quantity
  let delta := pyOr pos.greeks.delta 0.5 * qty * 100
  let gamma := pyOr pos.greeks.gamma 0.02 * qty * 100
  let theta := pyOr pos.greeks.theta 0 * qty
  let vega := pyOr pos.greeks.vega 0 * qty
  let delta := if !pos.is_call then -|delta| else delta
  { total_delta := delta, total_gamma := gamma,
    total_theta := theta, total_vega := vega }

/-- One iteration of the aggregation loop of _calculate_greeks. -/
def portfolio_greeks_step (acc : PortfolioGreeks) (pos : Position) :
    PortfolioGreeks :=
  let c := positionGreeksContribution pos
  { total_delta := acc.total_delta + c.total_delta,
    total_gamma := acc.total_gamma + c.total_gamma,
    total_theta := acc.total_theta + c.total_theta,
    total_vega := acc.total_vega + c.total_vega }

/-- Portfolio Greeks aggregation from
PortfolioRiskAnalyzer._calculate_greeks. -/
def portfolio_calculate_greeks (positions : List Position) : PortfolioGreeks :=
  positions.foldl portfolio_greeks_step
    { total_delta := 0, total_gamma := 0, total_theta := 0, total_vega := 0 }

/-- Market context as it exists after a reload: save_positions writes the
three enum fields as their string values and load_positions rebuilds
MarketContext directly from the dict, leaving them as strings (the
dataclass has no post-init conversion). -/
structure MarketContextS where
  trend_daily : String
  trend_weekly : String
  trend_alignment : Bool
  rsi : ℚ
  rsi_divergence : String
  macd_signal : String
  macd_histogram : ℚ
  macd_crossover : String
  atr : ℚ
  atr_percent : ℚ
  atr_expanding : Bool
  volume_trend : String
  volume_vs_avg : ℚ
  support_1 : ℚ
  support_2 : ℚ
  resistance_1 : ℚ
  resistance_2 : ℚ
  regime : String
  vix_level : ℚ
  vix_term_structure : String
deriving DecidableEq

/-- The by-value serialization of a MarketContext performed by
save_positions. -/
def marketToS (m : MarketContext) : MarketContextS :=
  { trend_daily := m.trend_daily.value, trend_weekly := m.trend_weekly.value,
    trend_alignment := m.trend_alignment, rsi := m.rsi,
    rsi_divergence := m.rsi_divergence, macd_signal := m.macd_signal,
    macd_histogram := m.macd_histogram, macd_crossover := m.macd_crossover,
    atr := m.atr, atr_percent := m.atr_percent,
    atr_expanding := m.atr_expanding, volume_trend := m.volume_trend,
    volume_vs_avg := m.volume_vs_avg, support_1 := m.support_1,
    support_2 := m.support_2, resistance_1 := m.resistance_1,
    resistance_2 := m.resistance_2, regime := m.regime.value,
    vix_level := m.vix_level, vix_term_structure := m.vix_term_structure }

/-- The persisted JSON record of one position, as written by
save_positions: asdict plus the explicit enum-to-value conversions for
position_type, status, action and the three market enums.  JSON round-trips
Python floats, ints, strings, booleans and lists exactly, so those fields
keep their types. -/
structure SavedPosition where
  id : String
  symbol : String
  position_type : String
  strike : ℚ
  expiration : String
  quantity : ℤ
  entry_date : String
  entry_stock_price : ℚ
  entry_option_price : ℚ
  starting_dte : ℤ
  stop_price : ℚ
  target_price : ℚ
  current_stock_price : ℚ
  current_option_price : ℚ
  current_dte : ℤ
  highest_since_entry : ℚ
  lowest_since_entry : ℚ
  greeks : Greeks
  theta_analysis : ThetaAnalysis
  gamma_analysis : GammaAnalysis
  liquidity : LiquidityAnalysis
  expected_move : ExpectedMove
  roll_analysis : RollAnalysis
  market : MarketContextS
  scenarios : ScenarioAnalysis
  score : PositionScore
  stops : StopLevels
  scaling : ScalingState
  status : String
  action : String
  action_detail : String
  alerts : List Alert
  warnings : List Alert
  breakeven_trigger_pct : ℚ
  atr_trail_trigger_pct : ℚ
  atr_trail_mult : ℚ
  runner_trail_mult : ℚ
  dte_warning : ℤ
  dte_critical : ℤ
  runner_min_dte : ℤ
deriving DecidableEq

/-- A position as reconstructed by load_positions: the three top-level enum
strings are parsed back by the Position post-init, but the market
sub-record keeps its string-valued trend and regime fields. -/
structure LoadedPosition where
  id : String
  symbol : String
  position_type : PositionType
  strike : ℚ
  expiration : String
  quantity : ℤ
  entry_date : String
  entry_stock_price : ℚ
  entry_option_price : ℚ
  starting_dte : ℤ
  stop_price : ℚ
  target_price : ℚ
  current_stock_price : ℚ
  current_option_price : ℚ
  current_dte : ℤ
  highest_since_entry : ℚ
  lowest_since_entry : ℚ
  greeks : Greeks
  theta_analysis : ThetaAnalysis
  gamma_analysis : GammaAnalysis
  liquidity : LiquidityAnalysis
  expected_move : ExpectedMove
  roll_analysis : RollAnalysis
  market : MarketContextS
  scenarios : ScenarioAnalysis
  score : PositionScore
  stops : StopLevels
  scaling : ScalingState
  status : TradeStatus
  action : Action
  action_detail : String
  alerts : List Alert
  warnings : List Alert
  breakeven_trigger_pct : ℚ
  atr_trail_trigger_pct : ℚ
  atr_trail_mult : ℚ
  runner_trail_mult : ℚ
  dte_warning : ℤ
  dte_critical : ℤ
  runner_min_dte : ℤ
deriving DecidableEq

/-- Serialization of one position by
ProfessionalTradeManager.save_positions. -/
def save_position (p : Position) : SavedPosition :=
  { id := p.id, symbol := p.symbol,
    position_type := p.position_type.value,
    strike := p.strike, expiration := p.expiration, quantity := p.quantity,
    entry_date := p.entry_date, entry_stock_price := p.entry_stock_price,
    entry_option_price := p.entry_option_price,
    starting_dte := p.starting_dte, stop_price := p.stop_price,
    target_price := p.target_price,
    current_stock_price := p.current_stock_price,
    current_option_price := p.current_option_price,
    current_dte := p.current_dte,
    highest_since_entry := p.highest_since_entry,
    lowest_since_entry := p.lowest_since_entry,
    greeks := p.greeks, theta_analysis := p.theta_analysis,
    gamma_analysis := p.gamma_analysis, liquidity := p.liquidity,
    expected_move := p.expected_move, roll_analysis := p.roll_analysis,
    market := marketToS p.market, scenarios := p.scenarios,
    score := p.score, stops := p.stops, scaling := p.scaling,
    status := p.status.value, action := p.action.value,
    action_detail := p.action_detail, alerts := p.alerts,
    warnings := p.warnings,
    breakeven_trigger_pct := p.breakeven_trigger_pct,
    atr_trail_trigger_pct := p.atr_trail_trigger_pct,
    atr_trail_mult := p.atr_trail_mult,
    runner_trail_mult := p.runner_trail_mult,
    dte_warning := p.dte_warning, dte_critical := p.dte_critical,
    runner_min_dte := p.runner_min_dte }

/-- Reconstruction of one position by
ProfessionalTradeManager.load_positions: the nested dataclasses are rebuilt
field-for-field, then the Position post-init parses the three enum strings
(failure aborts the load) and re-applies the high/low sentinel defaults. -/
def load_position (s : SavedPosition) : Option LoadedPosition :=
  match PositionType.ofValue s.position_type, TradeStatus.ofValue s.status,
      Action.ofValue s.action with
  | some pt, some st, some ac =>
    some
      { id := s.id, symbol := s.symbol, position_type := pt,
        strike := s.strike, expiration := s.expiration,
        quantity := s.quantity, entry_date := s.entry_date,
        entry_stock_price := s.entry_stock_price,
        entry_option_price := s.entry_option_price,
        starting_dte := s.starting_dte, stop_price := s.stop_price,
        target_price := s.target_price,
        current_stock_price := s.current_stock_price,
        current_option_price := s.current_option_price,
        current_dte := s.current_dte,
        highest_since_entry :=
          if s.highest_since_entry = 0 then s.entry_stock_price
          else s.highest_since_entry,
        lowest_since_entry :=
          if s.lowest_since_entry = 0 then s.entry_stock_price
          else s.lowest_since_entry,
        greeks := s.greeks, theta_analysis := s.theta_analysis,
        gamma_analysis := s.gamma_analysis, liquidity := s.liquidity,
        expected_move := s.expected_move, roll_analysis := s.roll_analysis,
        market := s.market, scenarios := s.scenarios, score := s.score,
        stops := s.stops, scaling := s.scaling, status := st, action := ac,
        action_detail := s.action_detail, alerts := s.alerts,
        warnings := s.warnings,
        breakeven_trigger_pct := s.breakeven_trigger_pct,
        atr_trail_trigger_pct := s.atr_trail_trigger_pct,
        atr_trail_mult := s.atr_trail_mult,
        runner_trail_mult := s.runner_trail_mult,
        dte_warning := s.dte_warning, dte_critical := s.dte_critical,
        runner_min_dte := s.runner_min_dte }
  | _, _, _ => none

/-- The expected result of a lossless by-value round trip: every field of
the position unchanged, with the market trend and regime variants compared
by their string values (the claim's match-by-value). -/
def byValueImage (p : Position) : LoadedPosition :=
  { id := p.id, symbol := p.symbol, position_type := p.position_type,
    strike := p.strike, expiration := p.expiration, quantity := p.quantity,
    entry_date := p.entry_date, entry_stock_price := p.entry_stock_price,
    entry_option_price := p.entry_option_price,
    starting_dte := p.starting_dte, stop_price := p.stop_price,
    target_price := p.target_price,
    current_stock_price := p.current_stock_price,
    current_option_price := p.current_option_price,
    current_dte := p.current_dte,
    highest_since_entry := p.highest_since_entry,
    lowest_since_entry := p.lowest_since_entry,
    greeks := p.greeks, theta_analysis := p.theta_analysis,
    gamma_analysis := p.gamma_analysis, liquidity := p.liquidity,
    expected_move := p.expected_move, roll_analysis := p.roll_analysis,
    market := marketToS p.market, scenarios := p.scenarios,
    score := p.score, stops := p.stops, scaling := p.scaling,
    status := p.status, action := p.action,
    action_detail := p.action_detail, alerts := p.alerts,
    warnings := p.warnings,
    breakeven_trigger_pct := p.breakeven_trigger_pct,
    atr_trail_trigger_pct := p.atr_trail_trigger_pct,
    atr_trail_mult := p.atr_trail_mult,
    runner_trail_mult := p.runner_trail_mult,
    dte_warning := p.dte_warning, dte_critical := p.dte_critical,
    runner_min_dte := p.runner_min_dte }

/-- Parsing inverts the value map for PositionType. -/
theorem positionTypeValueRoundTrip (x : PositionType) :
    PositionType.ofValue x.value = some x := by cases x <;> rfl

/-- Parsing inverts the value map for TradeStatus. -/
theorem tradeStatusValueRoundTrip (x : TradeStatus) :
    TradeStatus.ofValue x.value = some x := by cases x <;> rfl

/-- Parsing inverts the value map for Action. -/
theorem actionValueRoundTrip (x : Action) :
    Action.ofValue x.value = some x := by cases x <;> rfl

/-- Concrete stand-in for the math primitives used when evaluating the
pipeline at inputs where no claim depends on their values. -/
def flatPrims : MathPrims :=
  { sqrtQ := fun _ => 0, expQ := fun _ => 0, logQ := fun _ => 0,
    erfQ := fun _ => 0, piQ := 0 }

/-- A concrete long-call position as add_position would create it: entry
stock 100, entry option 1.00, strike 100, stop 95, target 110, 60 DTE,
original and recommended stops initialised to the stop price. -/
def basePosition : Position :=
  { id := "p1", symbol := "AAPL", position_type := PositionType.LONG_CALL,
    strike := 100, expiration := "2026-06-19", quantity := 1,
    entry_date := "2026-01-02", entry_stock_price := 100,
    entry_option_price := 1, starting_dte := 90, stop_price := 95,
    target_price := 110, current_stock_price := 100,
    current_option_price := 1, current_dte := 60,
    highest_since_entry := 100, lowest_since_entry := 100,
    greeks :=
      { delta := 0.5, gamma := 0.02, theta := -0.05, vega := 0.1, rho := 0,
        iv := 0.3, iv_rank := 0, iv_percentile := 0, iv_52w_high := 0,
        iv_52w_low := 0, entry_delta := 0.5, entry_iv := 0.3,
        entry_iv_rank := 0 },
    theta_analysis :=
      { daily_decay := 0, weekly_decay := 0, decay_rate_pct := 0,
        acceleration_phase := "NORMAL", days_to_acceleration := 0,
        days_to_critical := 0, value_in_7_days := 0, value_in_14_days := 0,
        theta_at_expiry_pace := 0 },
    gamma_analysis :=
      { gamma_risk_score := 0, dollar_gamma := 0, gamma_flip_distance := 0,
        is_near_strike := false, is_near_expiry := false,
        gamma_explosion_risk := false },
    liquidity :=
      { bid := 0.95, ask := 1.05, spread := 0.1, spread_pct := 10,
        volume := 500, open_interest := 1000, volume_oi_ratio := 0.5,
        liquidity_score := 75 },
    expected_move :=
      { one_sigma_up := 104, one_sigma_down := 96, two_sigma_up := 108,
        two_sigma_down := 92, prob_above_target := 30,
        prob_below_stop := 20, prob_itm_at_expiry := 50,
        expected_value := 1, risk_reward_ratio := 2 },
    roll_analysis :=
      { should_roll := false, roll_urgency := "NONE", roll_reason := "",
        recommended_roll_dte := 0, recommended_roll_strike := 0,
        roll_type := "", debit_to_roll := 0, credit_to_roll := 0,
        net_roll_cost := 0 },
    market :=
      { trend_daily := TrendStrength.NEUTRAL,
        trend_weekly := TrendStrength.NEUTRAL, trend_alignment := false,
        rsi := 50, rsi_divergence := "NONE", macd_signal := "NEUTRAL",
        macd_histogram := 0, macd_crossover := "NONE", atr := 0,
        atr_percent := 0, atr_expanding := false, volume_trend := "NORMAL",
        volume_vs_avg := 1, support_1 := 0, support_2 := 0,
        resistance_1 := 0, resistance_2 := 0,
        regime := MarketRegime.NEUTRAL, vix_level := 0,
        vix_term_structure := "NORMAL" },
    scenarios := { scenarios := [], breakeven_price := 0,
                   max_profit_price := 0, max_loss := 0 },
    score :=
      { overall_score := 0, pnl_score := 0, theta_score := 0,
        gamma_score := 0, iv_score := 0, liquidity_score := 0,
        momentum_score := 0, probability_score := 0,
        weights := defaultWeights },
    stops :=
      { original := 95, breakeven := 0, atr_trail := 0, percent_trail := 0,
        support_based := 0, runner_trail := 0, recommended := 95,
        original_option := 0, recommended_option := 0, runner_option := 0,
        method := "ORIGINAL", needs_update := false, distance_to_stop := 0,
        distance_to_stop_atr := 0, risk_at_stop := 0,
        risk_at_stop_pct := 0 },
    scaling :=
      { t1_target_pct := 50, t2_target_pct := 100, t1_size_pct := 50,
        t2_size_pct := 25, runner_size_pct := 25, t1_triggered := false,
        t1_price := 0, t1_date := "", t2_triggered := false, t2_price := 0,
        t2_date := "", runner_active := false, runner_closed := false,
        runner_exit_reason := "", runner_exit_price := 0,
        extended_target := 0, runner_trail_level := 0 },
    status := TradeStatus.BUILDING, action := Action.HOLD,
    action_detail := "", alerts := [], warnings := [],
    breakeven_trigger_pct := 30, atr_trail_trigger_pct := 20,
    atr_trail_mult := 2, runner_trail_mult := 1, dte_warning := 21,
    dte_critical := 14, runner_min_dte := 7 }

/-- An option snapshot carrying no data (all quote fields zero), so each
fetched field falls back to the cached value. -/
def emptyOption : OptionSnapshot :=
  { bid := 0, ask := 0, last := 0, mark := 0, volume := 0,
    open_interest := 0, delta := 0, gamma := 0, theta := 0, vega := 0,
    iv := 0 }

/-- A fetch cycle at a given stock price and option mark, with empty
histories. -/
def fetchAt (price mark : ℚ) : FetchData :=
  { stock := { price := price }, option := { emptyOption with mark := mark },
    dte_days := 60, iv_history := [], history := [],
    today := "2026-02-02" }

/-- The T1 block leaves the T2 flag, T2 target, runner flags and runner
state untouched. -/
theorem t1_step_frame (today : String) (pos : Position) (s : ScalingState) :
    (scaling_t1_step today pos s).t2_triggered = s.t2_triggered ∧
    (scaling_t1_step today pos s).t2_target_pct = s.t2_target_pct ∧
    (scaling_t1_step today pos s).runner_active = s.runner_active ∧
    (scaling_t1_step today pos s).runner_closed = s.runner_closed := by
  simp only [scaling_t1_step]
  split_ifs <;> simp_all

/-- A true T1 flag survives the T1 block. -/
theorem t1_step_mono (today : String) (pos : Position) (s : ScalingState)
    (h : s.t1_triggered = true) :
    (scaling_t1_step today pos s).t1_triggered = true := by
  simp only [scaling_t1_step]
  split_ifs <;> simp_all

/-- An untriggered T1 at or above its target fires and records the current
option price. -/
theorem t1_step_fires (today : String) (pos : Position) (s : ScalingState)
    (h1 : s.t1_triggered = false)
    (h2 : pos.pnl_percent ≥ s.t1_target_pct) :
    (scaling_t1_step today pos s).t1_triggered = true ∧
    (scaling_t1_step today pos s).t1_price = pos.current_option_price := by
  simp only [scaling_t1_step]
  split_ifs <;> simp_all

/-- The T2 block leaves the T1 fields and the runner-closed state
untouched. -/
theorem t2_step_frame (today : String) (pos : Position) (s : ScalingState) :
    (scaling_t2_step today pos s).t1_triggered = s.t1_triggered ∧
    (scaling_t2_step today pos s).t1_price = s.t1_price ∧
    (scaling_t2_step today pos s).runner_closed = s.runner_closed := by
  simp only [scaling_t2_step]
  split_ifs <;> simp_all

/-- A true T2 flag survives the T2 block, and so does an active runner. -/
theorem t2_step_mono (today : String) (pos : Position) (s : ScalingState) :
    (s.t2_triggered = true → (scaling_t2_step today pos s).t2_triggered = true) ∧
    (s.runner_active = true → (scaling_t2_step today pos s).runner_active = true) := by
  simp only [scaling_t2_step]
  split_ifs <;> simp_all

/-- The runner only becomes active in the T2 block if it already was or the
T2 flag is set by it. -/
theorem t2_step_runner_source (today : String) (pos : Position)
    (s : ScalingState)
    (h : (scaling_t2_step today pos s).runner_active = true) :
    s.runner_active = true ∨ (scaling_t2_step today pos s).t2_triggered = true := by
  revert h
  simp only [scaling_t2_step]
  split_ifs <;> simp_all

/-- An untriggered T2 at or above its target fires, records the current
option price and activates the runner. -/
theorem t2_step_fires (today : String) (pos : Position) (s : ScalingState)
    (h1 : s.t2_triggered = false)
    (h2 : pos.pnl_percent ≥ s.t2_target_pct) :
    (scaling_t2_step today pos s).t2_triggered = true ∧
    (scaling_t2_step today pos s).t2_price = pos.current_option_price ∧
    (scaling_t2_step today pos s).runner_active = true := by
  simp only [scaling_t2_step]
  split_ifs <;> simp_all

/-- The runner-exit block never touches the trigger flags, trigger prices
or the runner-active flag. -/
theorem runner_step_frame (pos : Position) (s : ScalingState) :
    (scaling_runner_step pos s).t1_triggered = s.t1_triggered ∧
    (scaling_runner_step pos s).t2_triggered = s.t2_triggered ∧
    (scaling_runner_step pos s).t1_price = s.t1_price ∧
    (scaling_runner_step pos s).t2_price = s.t2_price ∧
    (scaling_runner_step pos s).runner_active = s.runner_active := by
  simp only [scaling_runner_step]
  split_ifs <;> simp_all

/-- With the runner active and open, a DTE at or below the floor closes it
with reason DTE_CRITICAL, overriding any exit reason set in the same
call. -/
theorem runner_step_dte (pos : Position) (s : ScalingState)
    (ha : s.runner_active = true) (hc : s.runner_closed = false)
    (hd : pos.current_dte ≤ pos.runner_min_dte) :
    (scaling_runner_step pos s).runner_closed = true ∧
    (scaling_runner_step pos s).runner_exit_reason = "DTE_CRITICAL" := by
  simp only [scaling_runner_step]
  split_ifs <;> simp_all

/-- Claim C2: the scaling flags are one-shot.  For every state, a scaling
check never resets a true t1_triggered or t2_triggered flag, whatever the
new P&L; and runner_active can only be true afterwards if it already was or
t2_triggered is true after the step. -/
theorem c2_scaling_one_shot (today : String) (pos : Position) :
    (pos.scaling.t1_triggered = true →
      (check_scaling today pos).scaling.t1_triggered = true) ∧
    (pos.scaling.t2_triggered = true →
      (check_scaling today pos).scaling.t2_triggered = true) ∧
    ((check_scaling today pos).scaling.runner_active = true →
      pos.scaling.runner_active = true ∨
        (check_scaling today pos).scaling.t2_triggered = true) := by
  simp only [check_scaling]
  refine ⟨fun h => ?_, fun h => ?_, fun h => ?_⟩
  · rw [(runner_step_frame pos _).1, (t2_step_frame today pos _).1]
    exact t1_step_mono today pos _ h
  · rw [(runner_step_frame pos _).2.1]
    apply (t2_step_mono today pos _).1
    rw [(t1_step_frame today pos _).1]
    exact h
  · rw [(runner_step_frame pos _).2.2.2.2] at h
    rcases t2_step_runner_source today pos _ h with h2 | h2
    · rw [(t1_step_frame today pos pos.scaling).2.2.1] at h2
      exact Or.inl h2
    · rw [(runner_step_frame pos _).2.1]
      exact Or.inr h2

/-- Claim C2 witness: T1 already triggered, P&L pulled back to 40 percent,
and the flag is still reported true after the check. -/
theorem c2_scaling_one_shot_witness :
    (check_scaling "2026-02-02"
      { basePosition with
        current_option_price := 1.4,
        scaling := { basePosition.scaling with
                     t1_triggered := true } }).scaling.t1_triggered = true :=
  (c2_scaling_one_shot "2026-02-02" _).1 (by decide)

/-- Claim C3: the status classifier checks the stop-breach condition first,
so a position breaching its recommended stop with five days to expiry is
classified EXIT_STOP with action EXIT_NOW, not EXIT_TIME. -/
theorem c3_status_stop_precedence (pos : Position)
    (hstop : stop_hit pos = true) (_hdte : pos.current_dte = 5) :
    determine_status pos = (TradeStatus.EXIT_STOP, Action.EXIT_NOW) := by
  simp [determine_status, hstop]

/-- Claim C3 witness: a long call at 100 with recommended stop 101 and five
days to expiry resolves to EXIT_STOP and EXIT_NOW. -/
theorem c3_status_stop_precedence_witness :
    determine_status
      { basePosition with
        current_dte := 5,
        stops := { basePosition.stops with recommended := 101 } } =
      (TradeStatus.EXIT_STOP, Action.EXIT_NOW) :=
  c3_status_stop_precedence _ (by decide) (by decide)

/-- Claim C10: a single scaling check on a state with neither trigger fired
and P&L at or above both targets fires T1 and T2 together, activates the
runner, and records both trigger prices at the current option price. -/
theorem c10_scaling_jump (today : String) (pos : Position)
    (h1 : pos.scaling.t1_triggered = false)
    (h2 : pos.scaling.t2_triggered = false)
    (ht1 : pos.pnl_percent ≥ pos.scaling.t1_target_pct)
    (ht2 : pos.pnl_percent ≥ pos.scaling.t2_target_pct) :
    (check_scaling today pos).scaling.t1_triggered = true ∧
    (check_scaling today pos).scaling.t2_triggered = true ∧
    (check_scaling today pos).scaling.runner_active = true ∧
    (check_scaling today pos).scaling.t1_price = pos.current_option_price ∧
    (check_scaling today pos).scaling.t2_price = pos.current_option_price := by
  simp only [check_scaling]
  have e1 := t1_step_frame today pos pos.scaling
  have f1 := t1_step_fires today pos pos.scaling h1 ht1
  have f2 := t2_step_fires today pos (scaling_t1_step today pos pos.scaling)
    (by rw [e1.1]; exact h2) (by rw [e1.2.1]; exact ht2)
  have e2 := t2_step_frame today pos (scaling_t1_step today pos pos.scaling)
  have r := runner_step_frame pos
    (scaling_t2_step today pos (scaling_t1_step today pos pos.scaling))
  refine ⟨?_, ?_, ?_, ?_, ?_⟩
  · rw [r.1, e2.1]; exact f1.1
  · rw [r.2.1]; exact f2.1
  · rw [r.2.2.2.2]; exact f2.2.2
  · rw [r.2.2.1, e2.2.1]; exact f1.2
  · rw [r.2.2.2.1]; exact f2.2.1

/-- The base position after a jump of the option price to 2.20, which is a
P&L of 120 percent, past both default targets at once. -/
def jumpPosition : Position := { basePosition with current_option_price := 2.2 }

/-- Claim C10 witness: P&L 120 percent with default 50/100 targets fires
both triggers in one call and records both prices at 2.20. -/
theorem c10_scaling_jump_witness :
    (check_scaling "2026-02-02" jumpPosition).scaling.t1_triggered = true ∧
    (check_scaling "2026-02-02" jumpPosition).scaling.t2_triggered = true ∧
    (check_scaling "2026-02-02" jumpPosition).scaling.runner_active = true ∧
    (check_scaling "2026-02-02" jumpPosition).scaling.t1_price = 2.2 ∧
    (check_scaling "2026-02-02" jumpPosition).scaling.t2_price = 2.2 :=
  c10_scaling_jump "2026-02-02" jumpPosition (by decide) (by decide)
    (by norm_num [jumpPosition, basePosition, Position.pnl_percent])
    (by norm_num [jumpPosition, basePosition, Position.pnl_percent])

/-- A runner position five days from expiry, used for the C8 theorems. -/
def runnerPosition : Position :=
  { basePosition with
    current_dte := 5,
    scaling := { basePosition.scaling with
                 t1_triggered := true, t2_triggered := true,
                 runner_active := true, extended_target := 120 } }

/-- Claim C8 counterexample: when the runner DTE floor closes the runner,
the recorded exit reason is the string DTE_CRITICAL, not DTE_FLOOR as the
claim states. -/
theorem c8_runner_dte_reason_cex :
    (check_scaling "2026-02-02" runnerPosition).scaling.runner_closed = true ∧
    (check_scaling "2026-02-02" runnerPosition).scaling.runner_exit_reason =
      "DTE_CRITICAL" ∧
    (check_scaling "2026-02-02" runnerPosition).scaling.runner_exit_reason ≠
      "DTE_FLOOR" := by
  decide

/-- Claim C8 as amended: for every position whose runner is active and not
closed, a scaling check at DTE at or below the runner minimum closes the
runner with exit reason DTE_CRITICAL (the code's name for the DTE floor). -/
theorem c8_runner_dte_floor (today : String) (pos : Position)
    (ha : pos.scaling.runner_active = true)
    (hc : pos.scaling.runner_closed = false)
    (hd : pos.current_dte ≤ pos.runner_min_dte) :
    (check_scaling today pos).scaling.runner_closed = true ∧
    (check_scaling today pos).scaling.runner_exit_reason = "DTE_CRITICAL" := by
  simp only [check_scaling]
  have e1 := t1_step_frame today pos pos.scaling
  have e2 := t2_step_frame today pos (scaling_t1_step today pos pos.scaling)
  apply runner_step_dte pos _ _ _ hd
  · apply (t2_step_mono today pos _).2
    rw [e1.2.2.1]
    exact ha
  · rw [e2.2.2, e1.2.2.2]
    exact hc

/-- Claim C8 witness: the amended statement applied to the concrete runner
position at DTE 5 with floor 7. -/
theorem c8_runner_dte_floor_witness :
    (check_scaling "2026-02-02" runnerPosition).scaling.runner_closed = true ∧
    (check_scaling "2026-02-02" runnerPosition).scaling.runner_exit_reason =
      "DTE_CRITICAL" :=
  c8_runner_dte_floor "2026-02-02" runnerPosition (by decide) (by decide)
    (by decide)

/-- For a call the ratcheted stop never decreases, whatever the new
candidate. -/
theorem ratchet_stop_call_mono (prev t : ℚ) : prev ≤ ratchet_stop true prev t := by
  rcases eq_or_ne prev 0 with h | h
  · subst h
    simp [ratchet_stop, pyOr]
  · simp [ratchet_stop, pyOr, h]

/-- For a put with a nonzero previous recommendation the ratcheted stop
never increases. -/
theorem ratchet_stop_put_mono (prev t : ℚ) (h : prev ≠ 0) :
    ratchet_stop false prev t ≤ prev := by
  simp [ratchet_stop, h]

/-- The stop-calculation step only changes the stops sub-record: the
recommended stop it produces is the ratchet of the previous one. -/
theorem calculate_stops_recommended (pos : Position) :
    ∃ t, (calculate_stops pos).stops.recommended =
      ratchet_stop pos.is_call pos.stops.recommended t := by
  exact ⟨_, rfl⟩

/-- A fresh long put with no recommendation yet (zero sentinel, as the
dataclass default produces). -/
def putZeroStop : Position :=
  { basePosition with
    position_type := PositionType.LONG_PUT,
    stops := { basePosition.stops with recommended := 0 } }

/-- Claim C1 counterexample: for a long put whose recommended stop is still
the zero sentinel, one stop-calculation step raises the recommended stop
from 0 to 95, so the put sequence is not non-increasing for every sequence
of updates. -/
theorem c1_stop_ratchet_cex :
    putZeroStop.position_type = PositionType.LONG_PUT ∧
    putZeroStop.stops.recommended < (calculate_stops putZeroStop).stops.recommended := by
  refine ⟨rfl, ?_⟩
  norm_num [putZeroStop, basePosition, calculate_stops, ratchet_stop, pyOr,
    Position.is_call, Position.pnl_percent]

/-- The bullish 100, 110, 105 scenario of the claim: three successive full
updates of the base position at those prices, with option marks giving
P&L 40, 80 and 60 percent. -/
def ratchet1 : Position := update_position flatPrims (fetchAt 100 1.4) basePosition

/-- Second update of the scenario, price 110. -/
def ratchet2 : Position := update_position flatPrims (fetchAt 110 1.8) ratchet1

/-- Third update of the scenario, price 105: price fell but the stop may
not loosen. -/
def ratchet3 : Position := update_position flatPrims (fetchAt 105 1.6) ratchet2

set_option maxHeartbeats 4000000 in
/-- Claim C1 as amended: the recommended stop of a long call never
decreases across stop-calculation steps, for every sequence of updates; for
a long put it never increases once the recommendation is nonzero (from the
zero sentinel it first jumps to the initial candidate); and in the 100,
110, 105 bullish scenario with P&L at or above the breakeven threshold the
recommended-stop sequence is non-decreasing even though price fell on the
third update. -/
theorem c1_stop_ratchet (pos : Position) :
    (pos.is_call = true →
      pos.stops.recommended ≤ (calculate_stops pos).stops.recommended) ∧
    (pos.is_call = false → pos.stops.recommended ≠ 0 →
      (calculate_stops pos).stops.recommended ≤ pos.stops.recommended) ∧
    (ratchet1.pnl_percent ≥ ratchet1.breakeven_trigger_pct ∧
     ratchet2.pnl_percent ≥ ratchet2.breakeven_trigger_pct ∧
     ratchet3.pnl_percent ≥ ratchet3.breakeven_trigger_pct ∧
     ratchet1.stops.recommended ≤ ratchet2.stops.recommended ∧
     ratchet2.stops.recommended ≤ ratchet3.stops.recommended) := by
  refine ⟨fun h => ?_, fun h hz => ?_, ?_⟩
  · obtain ⟨t, ht⟩ := calculate_stops_recommended pos
    rw [ht, h]
    exact ratchet_stop_call_mono pos.stops.recommended t
  · obtain ⟨t, ht⟩ := calculate_stops_recommended pos
    rw [ht, h]
    exact ratchet_stop_put_mono pos.stops.recommended t hz
  · norm_num [ratchet1, ratchet2, ratchet3, update_position, fetchAt,
      emptyOption, flatPrims, basePosition, fetch_live_data,
      calculate_iv_metrics, analyze_market, calculate_theta_decay,
      calculate_gamma_risk, calculate_expected_move, em_norm_cdf,
      calculate_scenarios, scenarioRow, calculate_stops, ratchet_stop,
      check_scaling, scaling_t1_step, scaling_t2_step, scaling_runner_step,
      calculate_roll_recommendation, calculate_position_score, pnl_score_of,
      theta_score_of, iv_score_of, momentum_score_of, probability_score_of,
      defaultWeights, determine_status, stop_hit, target_hit,
      generate_alerts, Alert.mentions_t1, pyOr, Position.pnl_percent,
      Position.is_call, Greeks.iv_change, MarketContext.momentum_score,
      RollAnalysis.roll_action, strHas, hasSubChars, startsWithChars,
      optionStopFor, calculate_iv_rank]

/-- Claim C1 witness: the call-monotonicity component applied to the
concrete base long call. -/
theorem c1_stop_ratchet_witness :
    basePosition.stops.recommended ≤
      (calculate_stops basePosition).stops.recommended :=
  (c1_stop_ratchet basePosition).1 rfl

/-- Claim C4 counterexample: for a put with degenerate time to expiry the
Greeks computation returns delta 0.5, the same value as for a call, not
the minus 0.5 the claim states. -/
theorem c4_bs_degenerate_cex :
    (calculate_bs_greeks flatPrims 100 100 0 0.05 0.3 "put").delta = 0.5 ∧
    (calculate_bs_greeks flatPrims 100 100 0 0.05 0.3 "put").delta ≠ -0.5 := by
  norm_num [calculate_bs_greeks]

/-- Claim C4 as amended: for every input with S, K, T or sigma
non-positive, the Black-Scholes Greeks computation raises no exception and
returns delta 0.5 regardless of option type, with gamma, theta and vega
zero. -/
theorem c4_bs_degenerate (mp : MathPrims) (S K T r sigma : ℚ)
    (option_type : String) (h : T ≤ 0 ∨ sigma ≤ 0 ∨ S ≤ 0 ∨ K ≤ 0) :
    calculate_bs_greeks mp S K T r sigma option_type =
      { delta := 0.5, gamma := 0, theta := 0, vega := 0 } := by
  rw [calculate_bs_greeks, if_pos h]

/-- Claim C4 witness: the amended statement applied at T equal to zero for
both a put and a call. -/
theorem c4_bs_degenerate_witness :
    calculate_bs_greeks flatPrims 100 100 0 0.05 0.3 "put" =
      { delta := 0.5, gamma := 0, theta := 0, vega := 0 } ∧
    calculate_bs_greeks flatPrims 100 100 0 0.05 0.3 "call" =
      { delta := 0.5, gamma := 0, theta := 0, vega := 0 } :=
  ⟨c4_bs_degenerate flatPrims 100 100 0 0.05 0.3 "put" (Or.inl le_rfl),
   c4_bs_degenerate flatPrims 100 100 0 0.05 0.3 "call" (Or.inl le_rfl)⟩

/-- The P&L sub-score always lies between 0 and 100. -/
theorem pnl_score_of_bounds (pnl : ℚ) :
    0 ≤ pnl_score_of pnl ∧ pnl_score_of pnl ≤ 100 := by
  unfold pnl_score_of
  split_ifs with h1 h2 h3 h4 h5 h6
  · norm_num
  · constructor <;> linarith
  · constructor <;> linarith
  · constructor <;> linarith
  · constructor <;> linarith
  · constructor <;> linarith
  · refine ⟨le_max_left 0 _, max_le (by norm_num) (by linarith)⟩

/-- The theta sub-score always lies between 0 and 100. -/
theorem theta_score_of_bounds (dte : ℤ) :
    0 ≤ theta_score_of dte ∧ theta_score_of dte ≤ 100 := by
  unfold theta_score_of
  split_ifs with h1 h2 h3 h4
  · norm_num
  · have ha : (21 : ℚ) < dte := by exact_mod_cast h2
    have hb : (dte : ℚ) ≤ 45 := by exact_mod_cast not_lt.mp h1
    constructor <;> linarith
  · have ha : (14 : ℚ) < dte := by exact_mod_cast h3
    have hb : (dte : ℚ) ≤ 21 := by exact_mod_cast not_lt.mp h2
    constructor <;> linarith
  · have ha : (7 : ℚ) < dte := by exact_mod_cast h4
    have hb : (dte : ℚ) ≤ 14 := by exact_mod_cast not_lt.mp h3
    constructor <;> linarith
  · have hb : (dte : ℚ) ≤ 7 := by exact_mod_cast not_lt.mp h4
    refine ⟨le_max_left 0 _, max_le (by norm_num) (by linarith)⟩

/-- The IV sub-score always lies between 0 and 100. -/
theorem iv_score_of_bounds (iv_rank iv_change : ℚ) :
    0 ≤ iv_score_of iv_rank iv_change ∧ iv_score_of iv_rank iv_change ≤ 100 := by
  unfold iv_score_of
  split_ifs <;> constructor <;> norm_num

/-- The momentum sub-score always lies between 0 and 100. -/
theorem momentum_score_of_bounds (is_call : Bool) (m : ℚ) :
    0 ≤ momentum_score_of is_call m ∧ momentum_score_of is_call m ≤ 100 := by
  unfold momentum_score_of
  exact ⟨le_max_left 0 _, max_le (by norm_num) (min_le_left 100 _)⟩

/-- The probability sub-score lies between 0 and 100 when the input
probability is non-negative. -/
theorem probability_score_of_bounds (p : ℚ) (hp : 0 ≤ p) :
    0 ≤ probability_score_of p ∧ probability_score_of p ≤ 100 := by
  unfold probability_score_of
  exact ⟨le_min (by norm_num) (by linarith), min_le_left 100 _⟩

/-- A position whose stored gamma risk score is far outside the 0 to 100
band the pipeline produces. -/
def extremeGammaPos : Position :=
  { basePosition with
    gamma_analysis := { basePosition.gamma_analysis with
                        gamma_risk_score := -10000 } }

/-- Claim C5 counterexample: the scorer applies no final clamp, so a finite
but out-of-band gamma risk score input drives the overall score far above
100. -/
theorem c5_score_bounds_cex :
    ¬((calculate_position_score extremeGammaPos).overall_score ≤ 100) := by
  have hb : (("NEUTRAL" : String) = "BULLISH") = False := eq_false (by decide)
  have he : (("NEUTRAL" : String) = "BEARISH") = False := eq_false (by decide)
  norm_num [hb, he, extremeGammaPos, basePosition, calculate_position_score,
    pnl_score_of, theta_score_of, iv_score_of, momentum_score_of,
    probability_score_of, defaultWeights, Position.pnl_percent,
    Position.is_call, Greeks.iv_change, MarketContext.momentum_score]

/-- Claim C5 as amended: the overall score lies in the 0 to 100 band for
every position whose stored gamma risk score and liquidity score lie in
their pipeline-produced 0 to 100 bands and whose target probability is
non-negative; there is no defensive clamp beyond that. -/
theorem c5_score_bounds (pos : Position)
    (hg1 : 0 ≤ pos.gamma_analysis.gamma_risk_score)
    (hg2 : pos.gamma_analysis.gamma_risk_score ≤ 100)
    (hl1 : 0 ≤ pos.liquidity.liquidity_score)
    (hl2 : pos.liquidity.liquidity_score ≤ 100)
    (hp : 0 ≤ pos.expected_move.prob_above_target) :
    0 ≤ (calculate_position_score pos).overall_score ∧
    (calculate_position_score pos).overall_score ≤ 100 := by
  have h1 := pnl_score_of_bounds pos.pnl_percent
  have h2 := theta_score_of_bounds pos.current_dte
  have h3 := iv_score_of_bounds pos.greeks.iv_rank pos.greeks.iv_change
  have h4 := momentum_score_of_bounds pos.is_call pos.market.momentum_score
  have h5 := probability_score_of_bounds pos.expected_move.prob_above_target hp
  simp only [calculate_position_score, defaultWeights]
  constructor <;> linarith [h1.1, h1.2, h2.1, h2.2, h3.1, h3.2, h4.1, h4.2,
    h5.1, h5.2]

/-- The base position at a 99 percent loss. -/
def heavyLossPos : Position := { basePosition with current_option_price := 0.01 }

/-- The base position at a 5000 percent gain. -/
def heavyGainPos : Position := { basePosition with current_option_price := 51 }

/-- Claim C5 witness: the amended bound applied at P&L of minus 99 percent
and of plus 5000 percent. -/
theorem c5_score_bounds_witness :
    (0 ≤ (calculate_position_score heavyLossPos).overall_score ∧
      (calculate_position_score heavyLossPos).overall_score ≤ 100) ∧
    (0 ≤ (calculate_position_score heavyGainPos).overall_score ∧
      (calculate_position_score heavyGainPos).overall_score ≤ 100) :=
  ⟨c5_score_bounds heavyLossPos (by norm_num [heavyLossPos, basePosition])
      (by norm_num [heavyLossPos, basePosition])
      (by norm_num [heavyLossPos, basePosition])
      (by norm_num [heavyLossPos, basePosition])
      (by norm_num [heavyLossPos, basePosition]),
   c5_score_bounds heavyGainPos (by norm_num [heavyGainPos, basePosition])
      (by norm_num [heavyGainPos, basePosition])
      (by norm_num [heavyGainPos, basePosition])
      (by norm_num [heavyGainPos, basePosition])
      (by norm_num [heavyGainPos, basePosition])⟩

/-- A position carrying an alert left over from an earlier cycle (a DTE
warning generated when three days remained on some prior evaluation). -/
def stalePosition : Position :=
  { basePosition with alerts := [Alert.dte_critical 3] }

/-- Claim C6 counterexample: update_position clears the alert list at the
start of the cycle, so the previously attached entry is no longer present
after a further full update; alerts are rebuilt, not accumulated. -/
theorem c6_alerts_cex :
    stalePosition.alerts = [Alert.dte_critical 3] ∧
    Alert.dte_critical 3 ∉
      (update_position flatPrims (fetchAt 100 1) stalePosition).alerts := by
  refine ⟨rfl, ?_⟩
  have habs : |(1 : ℚ) / 20| = 1 / 20 := abs_of_nonneg (by norm_num)
  have hcr : (("CONSIDER" : String) = "RECOMMENDED") = False := eq_false (by decide)
  have hcu : (("CONSIDER" : String) = "URGENT") = False := eq_false (by decide)
  norm_num [habs, hcr, hcu, stalePosition, update_position, fetchAt, emptyOption, flatPrims,
    basePosition, fetch_live_data, calculate_iv_metrics, analyze_market,
    calculate_theta_decay, calculate_gamma_risk, calculate_expected_move,
    em_norm_cdf, calculate_scenarios, scenarioRow, calculate_stops,
    ratchet_stop, check_scaling, scaling_t1_step, scaling_t2_step,
    scaling_runner_step, calculate_roll_recommendation,
    calculate_position_score, pnl_score_of, theta_score_of, iv_score_of,
    momentum_score_of, probability_score_of, defaultWeights,
    determine_status, stop_hit, target_hit, generate_alerts,
    Alert.mentions_t1, pyOr, Position.pnl_percent, Position.is_call,
    Greeks.iv_change, MarketContext.momentum_score, RollAnalysis.roll_action,
    strHas, hasSubChars, startsWithChars, optionStopFor, calculate_iv_rank]

/-- Claim C6 as amended: alerts and warnings are rebuilt on every full
update rather than accumulated; the update output is entirely independent
of whatever alert and warning lists the position carried in, because both
lists are reset at the start of the cycle. -/
theorem c6_alerts_rebuilt (mp : MathPrims) (f : FetchData) (pos : Position)
    (a w : List Alert) :
    update_position mp f { pos with alerts := a, warnings := w } =
      update_position mp f pos := rfl

/-- A long put that has never received a stock quote: the current stock
price is still the zero placeholder. -/
def unquotedPut : Position :=
  { basePosition with
    position_type := PositionType.LONG_PUT,
    current_stock_price := 0 }

/-- Claim C7 counterexample: the round trip is not exact for every
position.  A fetch cycle whose stock snapshot carries a zero price (the
fetch-failure case) leaves the put's current stock price at zero, so the
low-water update drives lowest_since_entry to min(100, 0) = 0 while the
entry price stays 100; saving that state and reloading it makes the
post-init re-default the zero water mark to the entry price, and the
numeric field comes back as 100, not the 0 that was saved. -/
theorem c7_round_trip_cex :
    (fetch_live_data (fetchAt 0 0) unquotedPut).lowest_since_entry = 0 ∧
    (fetch_live_data (fetchAt 0 0) unquotedPut).entry_stock_price = 100 ∧
    (load_position
        (save_position (fetch_live_data (fetchAt 0 0) unquotedPut))).map
      (fun q => q.lowest_since_entry) = some 100 := by
  have hpc : (PositionType.LONG_PUT = PositionType.LONG_CALL) = False := by
    simp
  refine ⟨?_, ?_, ?_⟩ <;>
    norm_num [hpc, unquotedPut, basePosition, fetchAt, emptyOption,
      fetch_live_data, pyOr, Position.is_call, save_position, load_position,
      positionTypeValueRoundTrip, tradeStatusValueRoundTrip,
      actionValueRoundTrip, marketToS]

/-- Claim C7 as amended: persistence round-trip.  Saving and reloading a
position yields exactly the by-value image — every numeric, string,
boolean and list field unchanged, the three top-level enums
reconstructed, and the market trend and regime variants equal by string
value — provided its high- and low-water marks are nonzero (or the entry
price is zero): the reload post-init re-defaults a zero water mark to the
entry price, which is the one lossy case. -/
theorem c7_round_trip (p : Position)
    (h1 : p.highest_since_entry ≠ 0 ∨ p.entry_stock_price = 0)
    (h2 : p.lowest_since_entry ≠ 0 ∨ p.entry_stock_price = 0) :
    load_position (save_position p) = some (byValueImage p) := by
  have hh : (if p.highest_since_entry = 0 then p.entry_stock_price
      else p.highest_since_entry) = p.highest_since_entry := by
    rcases h1 with h | h
    · rw [if_neg h]
    · split_ifs with h0
      · rw [h, h0]
      · rfl
  have hl : (if p.lowest_since_entry = 0 then p.entry_stock_price
      else p.lowest_since_entry) = p.lowest_since_entry := by
    rcases h2 with h | h
    · rw [if_neg h]
    · split_ifs with h0
      · rw [h, h0]
      · rfl
  simp only [load_position, save_position, positionTypeValueRoundTrip,
    tradeStatusValueRoundTrip, actionValueRoundTrip, byValueImage, hh, hl]

/-- Claim C7 witness: the round trip applied to the concrete base position
with all eleven sub-records populated. -/
theorem c7_round_trip_witness :
    load_position (save_position basePosition) = some (byValueImage basePosition) :=
  c7_round_trip basePosition (Or.inl (by norm_num [basePosition]))
    (Or.inl (by norm_num [basePosition]))

/-- The delta contribution of one position equals stored delta times
quantity times 100 exactly when the stored delta is nonzero (else the 0.5
fallback fires) and, for a put, non-positive (else the sign flip changes
it). -/
theorem contribution_delta (p : Position) (h1 : p.greeks.delta ≠ 0)
    (h2 : 0 < p.quantity) (h3 : p.is_call = false → p.greeks.delta ≤ 0) :
    (positionGreeksContribution p).total_delta =
      p.greeks.delta * (p.quantity : ℚ) * 100 := by
  have hq : (0 : ℚ) ≤ (p.quantity : ℚ) := by exact_mod_cast h2.le
  cases hc : p.is_call with
  | true => simp [positionGreeksContribution, pyOr, hc, h1]
  | false =>
    have hd := h3 hc
    have hdq : p.greeks.delta * (p.quantity : ℚ) * 100 ≤ 0 := by
      have hmul : p.greeks.delta * (p.quantity : ℚ) ≤ 0 :=
        mul_nonpos_iff.mpr (Or.inr ⟨hd, hq⟩)
      linarith
    simp only [positionGreeksContribution, pyOr, hc, if_neg h1,
      Bool.not_false, eq_self_iff_true, if_true]
    rw [abs_of_nonpos hdq]
    ring

/-- The fold of the aggregation loop adds the per-position delta
contributions to the accumulator. -/
theorem portfolio_fold_delta (l : List Position) (acc : PortfolioGreeks)
    (h : ∀ p ∈ l, p.greeks.delta ≠ 0 ∧ 0 < p.quantity ∧
      (p.is_call = false → p.greeks.delta ≤ 0)) :
    (l.foldl portfolio_greeks_step acc).total_delta =
      acc.total_delta +
        (l.map (fun p => p.greeks.delta * (p.quantity : ℚ) * 100)).sum := by
  induction l generalizing acc with
  | nil => simp
  | cons p ps ih =>
    have hp := h p (List.mem_cons_self p ps)
    have hps : ∀ q ∈ ps, q.greeks.delta ≠ 0 ∧ 0 < q.quantity ∧
        (q.is_call = false → q.greeks.delta ≤ 0) :=
      fun q hq => h q (List.mem_cons_of_mem p hq)
    simp only [List.foldl_cons, List.map_cons, List.sum_cons]
    rw [ih _ hps]
    have hstep : (portfolio_greeks_step acc p).total_delta =
        acc.total_delta + (positionGreeksContribution p).total_delta := rfl
    rw [hstep, contribution_delta p hp.1 hp.2.1 hp.2.2]
    ring

/-- A stored position whose delta field is zero (the dataclass default
before any Greeks are fetched). -/
def zeroDeltaPos : Position :=
  { basePosition with greeks := { basePosition.greeks with delta := 0 } }

/-- Claim C9 counterexample: for a single call with stored delta zero the
aggregator substitutes the 0.5 fallback, so the total portfolio delta is
50, not the zero the claimed per-position formula gives. -/
theorem c9_portfolio_delta_cex :
    (portfolio_calculate_greeks [zeroDeltaPos]).total_delta = 50 ∧
    ([zeroDeltaPos].map
        (fun p => p.greeks.delta * (p.quantity : ℚ) * 100)).sum = 0 := by
  constructor <;>
    norm_num [portfolio_calculate_greeks, portfolio_greeks_step,
      positionGreeksContribution, pyOr, zeroDeltaPos, basePosition,
      Position.is_call]

/-- Claim C9 as amended: for every list of positions whose stored deltas
are nonzero (else a 0.5-per-share fallback is substituted), with positive
quantities and non-positive deltas on puts (else the sign flip alters the
term), the total portfolio delta equals the sum over positions of delta
times quantity times 100. -/
theorem c9_portfolio_delta (l : List Position)
    (h : ∀ p ∈ l, p.greeks.delta ≠ 0 ∧ 0 < p.quantity ∧
      (p.is_call = false → p.greeks.delta ≤ 0)) :
    (portfolio_calculate_greeks l).total_delta =
      (l.map (fun p => p.greeks.delta * (p.quantity : ℚ) * 100)).sum := by
  unfold portfolio_calculate_greeks
  rw [portfolio_fold_delta l _ h]
  norm_num

/-- A long put with stored delta minus 0.4 and two contracts. -/
def putDeltaPos : Position :=
  { basePosition with
    position_type := PositionType.LONG_PUT,
    quantity := 2,
    greeks := { basePosition.greeks with delta := -0.4 } }

/-- Claim C9 witness: the amended equality applied to a concrete
two-position book, one call and one put. -/
theorem c9_portfolio_delta_witness :
    (portfolio_calculate_greeks [basePosition, putDeltaPos]).total_delta =
      ([basePosition, putDeltaPos].map
        (fun p => p.greeks.delta * (p.quantity : ℚ) * 100)).sum :=
  c9_portfolio_delta [basePosition, putDeltaPos] (by
    intro p hp
    rcases List.mem_cons.mp hp with rfl | hp2
    · refine ⟨by norm_num [basePosition], by norm_num [basePosition], ?_⟩
      intro hc
      exact absurd hc (by norm_num [basePosition, Position.is_call])
    · rcases List.mem_cons.mp hp2 with rfl | hp3
      · refine ⟨by norm_num [putDeltaPos, basePosition],
          by norm_num [putDeltaPos, basePosition], fun _ => ?_⟩
        norm_num [putDeltaPos, basePosition]
      · exact absurd hp3 (List.not_mem_nil p))

end Cockpit
